import Mathlib

/-!
Verification of the uncertainty-calibration engine of the chemprop repository
(`chemprop/uncertainty/calibrator.py`).

Tensors are modelled as (nested) lists of rationals: a tensor of shape
`(N, T)` is a `List (List ℚ)` of `N` rows, a tensor of shape `(N, T, K)` is a
`List (List (List ℚ))`.  Boolean masks are `List (List Bool)`, integer targets
are `List (List ℤ)` (multilabel indicators) or `List (List ℕ)` (multiclass
class indices).  Real arithmetic of the source is modelled by exact rational
arithmetic.  The IEEE infinities used as fill values in the multilabel
calibrator are modelled by the type `ERat` of rationals extended with a
bottom (`-inf`) and a top (`+inf`) element.  A Python `raise` is modelled by
an `Option` result of `none`; a `warnings.warn` call is modelled by a `Bool`
flag in the result.
-/

/-- Rationals extended with `-inf` (`⊥`) and `+inf` (`⊤`), modelling the IEEE
infinities used as fill values. -/
abbrev ERat := WithBot (WithTop ℚ)

/-- Embed a finite rational into `ERat`. -/
def toERat (q : ℚ) : ERat := ((q : WithTop ℚ) : ERat)

/-- Zip three lists into a list of triples (truncating at the shortest). -/
def zip3 {α β γ : Type} : List α → List β → List γ → List (α × β × γ)
  | a :: as, b :: bs, c :: cs => (a, b, c) :: zip3 as bs cs
  | _, _, _ => []

/-- Pointwise application of a ternary function (truncating at the shortest). -/
def zipWith3 {α β γ δ : Type} (f : α → β → γ → δ) : List α → List β → List γ → List δ
  | a :: as, b :: bs, c :: cs => f a b c :: zipWith3 f as bs cs
  | _, _, _ => []

/-- Boolean-mask row selection, the model of `x[mask]` for 1-D `x`. -/
def maskFilter {α : Type} : List α → List Bool → List α
  | x :: xs, b :: bs => if b then x :: maskFilter xs bs else maskFilter xs bs
  | _, _ => []

/-- Column `j` of a matrix stored as a list of rows, the model of `x[:, j]`. -/
def col {α : Type} (d : α) (m : List (List α)) (j : ℕ) : List α :=
  m.map (fun r => r.getD j d)

/-- The model of `torch.quantile(xs, q, interpolation="higher")`: the entry of
the ascending sort of `xs` at index `⌈q * (n - 1)⌉` where `n = xs.length`. -/
def quantileHigher {α : Type} [LinearOrder α] (d : α) (xs : List α) (q : ℚ) : α :=
  (List.insertionSort (· ≤ ·) xs).getD (⌈q * ((xs.length : ℚ) - 1)⌉).toNat d

/-- Running sums with accumulator `acc`, the model of `torch.cumsum` along the
last dimension (`cumsum 0 xs` is the cumulative-sum list of `xs`). -/
def cumsum (acc : ℚ) : List ℚ → List ℚ
  | [] => []
  | x :: xs => (acc + x) :: cumsum (acc + x) xs

/-! ### MultilabelConformalCalibrator -/

/-- `MultilabelConformalCalibrator.nonconformity_scores`: the negative of each
predicted probability. -/
def MultilabelConformalCalibrator.nonconformity_scores (preds : List (List ℚ)) :
    List (List ℚ) :=
  preds.map (fun r => r.map Neg.neg)

/-- The fitted state `self.tin` / `self.tout` of the multilabel conformal
calibrator. -/
structure MultilabelFitted where
  tin : ERat
  tout : ERat
deriving DecidableEq, Repr

/-- Fill the entries of a row at which the mask bit is FALSE with `v`: one row
of `x.masked_fill(~mask, v)`. -/
def fillRow {δ : Type} (r : List δ) (m : List Bool) (v : δ) : List δ :=
  (r.zip m).map (fun c => if c.2 then c.1 else v)

/-- Whether `x.masked_fill(~mask, v)` is accepted: out-of-place `masked_fill`
expands both operands, so the row counts must be equal or one of them must
be `1`; otherwise PyTorch raises a `RuntimeError`.  (The column counts are
shared by construction in the source — both tensors have second dimension
`T` — so only the row dimension is modelled as broadcast.) -/
abbrev maskedFillOk {δ : Type} (x : List (List δ)) (mask : List (List Bool)) : Prop :=
  x.length = mask.length ∨ x.length = 1 ∨ mask.length = 1

/-- `x.masked_fill(~mask, v)` with two-way broadcasting along the row
dimension: aligned rows when the row counts agree, a single row of `x`
repeated against every mask row, or a single mask row applied to every row
of `x`. -/
def maskedFill {δ : Type} (x : List (List δ)) (mask : List (List Bool)) (v : δ) :
    List (List δ) :=
  if x.length = mask.length then (x.zip mask).map (fun p => fillRow p.1 p.2 v)
  else if x.length = 1 then mask.map (fun m => fillRow (x.headD []) m v)
  else x.map (fun r => fillRow r (mask.headD []) v)

/-- `MultilabelConformalCalibrator.fit`.  The `ValueError`/`RuntimeError`
exits are modelled by `none`:
the explicit `targets.shape[1] < 2` check, and the shape error raised by
`masked_fill` when the number of rows kept by `targets[has_zeros]`
(resp. `targets[has_ones]`) is neither the number of rows of `mask` nor
broadcastable against it (`maskedFillOk`).
A cell of `masked_scores_in` is `score * 1 + 0` where the row's target is `0`
and `score * 0 + inf` elsewhere, i.e. the score where the target is `0` and
`+inf` elsewhere (`-inf` symmetrically for the ones group); the subsequent
`masked_fill(~mask, inf)` step is `maskedFill`. -/
def MultilabelConformalCalibrator.fit (alpha : ℚ) (uncs : List (List ℚ))
    (targets : List (List ℤ)) (mask : List (List Bool)) : Option MultilabelFitted :=
  if (targets.headD []).length < 2 then none
  else
    let zeroRows := (targets.zip uncs).filter (fun p => p.1.any (fun t => t == 0))
    let masked_scores_in := zeroRows.map (fun p =>
      (p.1.zip p.2).map (fun c => if c.1 = 0 then toERat (-c.2) else (⊤ : ERat)))
    let oneRows := (targets.zip uncs).filter (fun p => p.1.any (fun t => t == 1))
    let masked_scores_out := oneRows.map (fun p =>
      (p.1.zip p.2).map (fun c => if c.1 = 1 then toERat (-c.2) else (⊥ : ERat)))
    if ¬ (maskedFillOk masked_scores_in mask ∧ maskedFillOk masked_scores_out mask) then none
    else
      let calibration_scores_in :=
        (maskedFill masked_scores_in mask (⊤ : ERat)).map (fun r => r.foldr min (⊤ : ERat))
      let calibration_scores_out :=
        (maskedFill masked_scores_out mask (⊥ : ERat)).map (fun r => r.foldr max (⊥ : ERat))
      some
        { tin := quantileHigher ⊥ calibration_scores_in (alpha / 2)
          tout := quantileHigher ⊥ calibration_scores_out (1 - alpha / 2) }

/-- `MultilabelConformalCalibrator.apply`: indicator of `score ≤ tin`
concatenated with indicator of `score ≤ tout` along the class axis. -/
def MultilabelConformalCalibrator.apply (f : MultilabelFitted)
    (preds uncs : List (List ℚ)) : List (List ℚ) × List (List ℤ) :=
  let scores := MultilabelConformalCalibrator.nonconformity_scores uncs
  let cal_preds_in := scores.map (fun r => r.map (fun s => if toERat s ≤ f.tin then (1 : ℤ) else 0))
  let cal_preds_out := scores.map (fun r => r.map (fun s => if toERat s ≤ f.tout then (1 : ℤ) else 0))
  (preds, (cal_preds_in.zip cal_preds_out).map (fun p => p.1 ++ p.2))

/-! ### MulticlassConformalCalibrator -/

/-- `MulticlassConformalCalibrator.nonconformity_scores`: the negative of the
softmax output, on a tensor of shape `(N, T, K)`. -/
def MulticlassConformalCalibrator.nonconformity_scores (preds : List (List (List ℚ))) :
    List (List (List ℚ)) :=
  preds.map (fun m => m.map (fun r => r.map Neg.neg))

/-- The body of the per-task loop of `MulticlassConformalCalibrator.fit` (and,
through inheritance, of the adaptive variant): mask the rows of task `j`,
gather the score of each point's true class, and take the higher-interpolated
quantile at level `ceil((n+1)(1-alpha))/n` if `alpha ≥ 1/(n+1)`, at level `1`
otherwise.  The `Bool` records whether the trivial-coverage warning was
emitted. -/
def MulticlassConformalCalibrator.fitTask (alpha : ℚ) (scoresCol : List (List ℚ))
    (targetsCol : List ℕ) (maskCol : List Bool) : ℚ × Bool :=
  let targets_j := maskFilter targetsCol maskCol
  let scoresRows := maskFilter scoresCol maskCol
  let scores_j := (scoresRows.zip targets_j).map (fun p => p.1.getD p.2 0)
  let num_data := targets_j.length
  if 1 / ((num_data : ℚ) + 1) ≤ alpha then
    (quantileHigher 0 scores_j ((⌈((num_data : ℚ) + 1) * (1 - alpha)⌉ : ℚ) / (num_data : ℚ)), false)
  else
    (quantileHigher 0 scores_j 1, true)

/-- `MulticlassConformalCalibrator.fit`, parametrised by the dynamically
dispatched `self.nonconformity_scores` (Python inheritance). -/
def MulticlassConformalCalibrator.fitWith
    (scoreFn : List (List (List ℚ)) → List (List (List ℚ))) (alpha : ℚ)
    (uncs : List (List (List ℚ))) (targets : List (List ℕ)) (mask : List (List Bool)) :
    List (ℚ × Bool) :=
  let scores := scoreFn uncs
  (List.range (uncs.headD []).length).map (fun j =>
    MulticlassConformalCalibrator.fitTask alpha (col [] scores j) (col 0 targets j)
      (col false mask j))

/-- `MulticlassConformalCalibrator.fit`. -/
def MulticlassConformalCalibrator.fit (alpha : ℚ) (uncs : List (List (List ℚ)))
    (targets : List (List ℕ)) (mask : List (List Bool)) : List (ℚ × Bool) :=
  MulticlassConformalCalibrator.fitWith MulticlassConformalCalibrator.nonconformity_scores
    alpha uncs targets mask

/-- `MulticlassConformalCalibrator.apply`, parametrised by the dynamically
dispatched `self.nonconformity_scores`: class `k` of task `j` is included iff
its score is `≤ qhats[j]`; tasks beyond `len(qhats)` keep the `zeros_like`
initialisation. -/
def MulticlassConformalCalibrator.applyWith
    (scoreFn : List (List (List ℚ)) → List (List (List ℚ))) (qhats : List ℚ)
    (preds uncs : List (List (List ℚ))) :
    List (List (List ℚ)) × List (List (List ℤ)) :=
  let scores := scoreFn uncs
  (preds, scores.map (fun mat => (List.range mat.length).map (fun j =>
    match qhats.get? j with
    | some qhat => (mat.getD j []).map (fun s => if s ≤ qhat then (1 : ℤ) else 0)
    | none => (mat.getD j []).map (fun _ => (0 : ℤ)))))

/-- `MulticlassConformalCalibrator.apply`. -/
def MulticlassConformalCalibrator.apply (qhats : List ℚ) (preds uncs : List (List (List ℚ))) :
    List (List (List ℚ)) × List (List (List ℤ)) :=
  MulticlassConformalCalibrator.applyWith MulticlassConformalCalibrator.nonconformity_scores
    qhats preds uncs

/-! ### AdaptiveMulticlassConformalCalibrator -/

/-- One row (fixed data point and task) of
`AdaptiveMulticlassConformalCalibrator.nonconformity_scores`: argsort the
class probabilities descending (stably), cumulatively sum them in sorted
order, and scatter the sums back to the original class order. -/
def AdaptiveMulticlassConformalCalibrator.scoresRow (p : List ℚ) : List ℚ :=
  let sort_index := List.insertionSort (fun a b => p.getD b 0 ≤ p.getD a 0)
    (List.range p.length)
  let sorted_preds := sort_index.map (fun i => p.getD i 0)
  let sorted_scores := cumsum 0 sorted_preds
  (List.range p.length).map (fun i =>
    match (sort_index.zip sorted_scores).find? (fun q => q.1 == i) with
    | some q => q.2
    | none => 0)

/-- `AdaptiveMulticlassConformalCalibrator.nonconformity_scores` on a tensor of
shape `(N, T, K)` (sort, cumsum and scatter act along the class dimension). -/
def AdaptiveMulticlassConformalCalibrator.nonconformity_scores
    (preds : List (List (List ℚ))) : List (List (List ℚ)) :=
  preds.map (fun m => m.map AdaptiveMulticlassConformalCalibrator.scoresRow)

/-- `AdaptiveMulticlassConformalCalibrator.fit`: the inherited multiclass `fit`
with the overridden score function. -/
def AdaptiveMulticlassConformalCalibrator.fit (alpha : ℚ) (uncs : List (List (List ℚ)))
    (targets : List (List ℕ)) (mask : List (List Bool)) : List (ℚ × Bool) :=
  MulticlassConformalCalibrator.fitWith
    AdaptiveMulticlassConformalCalibrator.nonconformity_scores alpha uncs targets mask

/-- `AdaptiveMulticlassConformalCalibrator.apply`: the inherited multiclass
`apply` with the overridden score function. -/
def AdaptiveMulticlassConformalCalibrator.apply (qhats : List ℚ)
    (preds uncs : List (List (List ℚ))) :
    List (List (List ℚ)) × List (List (List ℤ)) :=
  MulticlassConformalCalibrator.applyWith
    AdaptiveMulticlassConformalCalibrator.nonconformity_scores qhats preds uncs

/-! ### RegressionConformalCalibrator -/

/-- The body of the per-task loop of `RegressionConformalCalibrator.fit`: mask
the rows of task `j`, form the interval bounds `pred + (-1/2)*unc` and
`pred + (1/2)*unc` (`self.bounds = [-1/2, 1/2]`), score each point by
`max(lower - target, target - upper)`, and apply the same quantile-level rule
as the multiclass calibrator.  The `Bool` records whether the
trivial-coverage warning was emitted. -/
def RegressionConformalCalibrator.fitTask (alpha : ℚ) (predsCol uncsCol targetsCol : List ℚ)
    (maskCol : List Bool) : ℚ × Bool :=
  let targets_j := maskFilter targetsCol maskCol
  let preds_j := maskFilter predsCol maskCol
  let interval_j := maskFilter uncsCol maskCol
  let lowerBound := (preds_j.zip interval_j).map (fun p => p.1 + (-1 / 2) * p.2)
  let upperBound := (preds_j.zip interval_j).map (fun p => p.1 + (1 / 2) * p.2)
  let calibration_scores := zipWith3 (fun lo hi t => max (lo - t) (t - hi)) lowerBound
    upperBound targets_j
  let num_data := targets_j.length
  if 1 / ((num_data : ℚ) + 1) ≤ alpha then
    (quantileHigher 0 calibration_scores
      ((⌈((num_data : ℚ) + 1) * (1 - alpha)⌉ : ℚ) / (num_data : ℚ)), false)
  else
    (quantileHigher 0 calibration_scores 1, true)

/-- `RegressionConformalCalibrator.fit`: the per-task loop over
`range(preds.shape[1])`. -/
def RegressionConformalCalibrator.fit (alpha : ℚ) (preds uncs targets : List (List ℚ))
    (mask : List (List Bool)) : List (ℚ × Bool) :=
  (List.range (preds.headD []).length).map (fun j =>
    RegressionConformalCalibrator.fitTask alpha (col 0 preds j) (col 0 uncs j)
      (col 0 targets j) (col false mask j))

/-- `RegressionConformalCalibrator.apply`: `cal_intervals = uncs + 2 * qhats`,
broadcasting the per-task margins over the rows. -/
def RegressionConformalCalibrator.apply (qhats : List ℚ) (preds uncs : List (List ℚ)) :
    List (List ℚ) × List (List ℚ) :=
  (preds, uncs.map (fun row => (row.zip qhats).map (fun p => p.1 + 2 * p.2)))

/-! ### Constructors and the fit/apply object lifecycle

Each conformal calibrator's `__init__` stores `alpha` and raises `ValueError`
unless `0 ≤ alpha ≤ 1` (modelled by `none`).  The fitted parameters are
attributes that exist only after a successful `fit` call, modelled by an
`Option` field that a fresh instance has as `none`. -/

/-- The mutable attribute state of a calibrator object: the configured `alpha`
and the fitted parameters if some `fit` call has completed. -/
structure CalState (P : Type) where
  alpha : ℚ
  fitted : Option P
deriving DecidableEq, Repr

/-- `MultilabelConformalCalibrator.__init__`. -/
def MultilabelConformalCalibrator.construct (alpha : ℚ) : Option (CalState MultilabelFitted) :=
  if 0 ≤ alpha ∧ alpha ≤ 1 then some ⟨alpha, none⟩ else none

/-- `MulticlassConformalCalibrator.__init__`. -/
def MulticlassConformalCalibrator.construct (alpha : ℚ) : Option (CalState (List ℚ)) :=
  if 0 ≤ alpha ∧ alpha ≤ 1 then some ⟨alpha, none⟩ else none

/-- `AdaptiveMulticlassConformalCalibrator.__init__` (inherited from the
multiclass calibrator). -/
def AdaptiveMulticlassConformalCalibrator.construct (alpha : ℚ) : Option (CalState (List ℚ)) :=
  if 0 ≤ alpha ∧ alpha ≤ 1 then some ⟨alpha, none⟩ else none

/-- `RegressionConformalCalibrator.__init__` (also stores the constant
`self.bounds = [-1/2, 1/2]`, inlined in `fitTask`). -/
def RegressionConformalCalibrator.construct (alpha : ℚ) : Option (CalState (List ℚ)) :=
  if 0 ≤ alpha ∧ alpha ≤ 1 then some ⟨alpha, none⟩ else none

/-- A `fit` call on a multilabel calibrator object: stores the fitted
parameters on success, propagates the exception (`none`) otherwise. -/
def MultilabelConformalCalibrator.fitState (s : CalState MultilabelFitted)
    (uncs : List (List ℚ)) (targets : List (List ℤ)) (mask : List (List Bool)) :
    Option (CalState MultilabelFitted) :=
  (MultilabelConformalCalibrator.fit s.alpha uncs targets mask).map
    (fun f => { s with fitted := some f })

/-- An `apply` call on a multilabel calibrator object: reads `self.tin` /
`self.tout` (an `AttributeError`, i.e. `none`, before any successful `fit`),
writes no attribute. -/
def MultilabelConformalCalibrator.applyState (s : CalState MultilabelFitted)
    (preds uncs : List (List ℚ)) :
    CalState MultilabelFitted × Option (List (List ℚ) × List (List ℤ)) :=
  (s, s.fitted.map (fun f => MultilabelConformalCalibrator.apply f preds uncs))

/-- A `fit` call on a multiclass calibrator object (stores `self.qhats`). -/
def MulticlassConformalCalibrator.fitState (s : CalState (List ℚ))
    (uncs : List (List (List ℚ))) (targets : List (List ℕ)) (mask : List (List Bool)) :
    CalState (List ℚ) :=
  { s with fitted := some ((MulticlassConformalCalibrator.fit s.alpha uncs targets mask).map
      Prod.fst) }

/-- An `apply` call on a multiclass calibrator object: reads `self.qhats`
(an `AttributeError`, i.e. `none`, before any `fit`), writes no attribute. -/
def MulticlassConformalCalibrator.applyState (s : CalState (List ℚ))
    (preds uncs : List (List (List ℚ))) :
    CalState (List ℚ) × Option (List (List (List ℚ)) × List (List (List ℤ))) :=
  (s, s.fitted.map (fun q => MulticlassConformalCalibrator.apply q preds uncs))

/-- A `fit` call on an adaptive multiclass calibrator object. -/
def AdaptiveMulticlassConformalCalibrator.fitState (s : CalState (List ℚ))
    (uncs : List (List (List ℚ))) (targets : List (List ℕ)) (mask : List (List Bool)) :
    CalState (List ℚ) :=
  { s with fitted := some ((AdaptiveMulticlassConformalCalibrator.fit s.alpha uncs targets
      mask).map Prod.fst) }

/-- An `apply` call on an adaptive multiclass calibrator object. -/
def AdaptiveMulticlassConformalCalibrator.applyState (s : CalState (List ℚ))
    (preds uncs : List (List (List ℚ))) :
    CalState (List ℚ) × Option (List (List (List ℚ)) × List (List (List ℤ))) :=
  (s, s.fitted.map (fun q => AdaptiveMulticlassConformalCalibrator.apply q preds uncs))

/-- A `fit` call on a regression calibrator object (stores `self.qhats`). -/
def RegressionConformalCalibrator.fitState (s : CalState (List ℚ))
    (preds uncs targets : List (List ℚ)) (mask : List (List Bool)) :
    CalState (List ℚ) :=
  { s with fitted := some ((RegressionConformalCalibrator.fit s.alpha preds uncs targets
      mask).map Prod.fst) }

/-- An `apply` call on a regression calibrator object: reads `self.qhats`
(an `AttributeError`, i.e. `none`, before any `fit`), writes no attribute. -/
def RegressionConformalCalibrator.applyState (s : CalState (List ℚ))
    (preds uncs : List (List ℚ)) :
    CalState (List ℚ) × Option (List (List ℚ) × List (List ℚ)) :=
  (s, s.fitted.map (fun q => RegressionConformalCalibrator.apply q preds uncs))

/-! ### The calibrator registry -/

/-- The calibrator classes registered in `calibrator.py`, in source order. -/
inductive CalibratorClass
  | zscaling
  | tscaling
  | zelikmanInterval
  | mveWeighting
  | platt
  | conformalMultilabel
  | conformalMulticlass
  | conformalAdaptive
  | conformalRegression
  | isotonic
  | isotonicMulticlass
deriving DecidableEq, Repr

/-- Modelled from the spec: `ClassRegistry` (from `chemprop.utils.registry`,
whose source is not part of this corpus) maps string keys to calibrator
classes; `register(key)` is a decorator-like registration that adds the
binding and returns the class unchanged. -/
def ClassRegistry.register (r : List (String × CalibratorClass)) (key : String)
    (cls : CalibratorClass) : List (String × CalibratorClass) × CalibratorClass :=
  (r ++ [(key, cls)], cls)

/-- Modelled from the spec: registry lookup by key; an unknown key raises a
"not found" error, modelled by `none`. -/
def ClassRegistry.lookup (r : List (String × CalibratorClass)) (key : String) :
    Option CalibratorClass :=
  (r.find? (fun p => p.1 == key)).map (fun p => p.2)

/-- `UncertaintyCalibratorRegistry` after module load: the eleven
`@UncertaintyCalibratorRegistry.register(...)` decorations of
`calibrator.py`, applied in source order to the empty registry. -/
def UncertaintyCalibratorRegistry : List (String × CalibratorClass) :=
  let r0 := ClassRegistry.register [] "zscaling" CalibratorClass.zscaling
  let r1 := ClassRegistry.register r0.1 "tscaling" CalibratorClass.tscaling
  let r2 := ClassRegistry.register r1.1 "zelikman-interval" CalibratorClass.zelikmanInterval
  let r3 := ClassRegistry.register r2.1 "mve-weighting" CalibratorClass.mveWeighting
  let r4 := ClassRegistry.register r3.1 "platt" CalibratorClass.platt
  let r5 := ClassRegistry.register r4.1 "conformal-multilabel" CalibratorClass.conformalMultilabel
  let r6 := ClassRegistry.register r5.1 "conformal-multiclass" CalibratorClass.conformalMulticlass
  let r7 := ClassRegistry.register r6.1 "conformal-adaptive" CalibratorClass.conformalAdaptive
  let r8 := ClassRegistry.register r7.1 "conformal-regression" CalibratorClass.conformalRegression
  let r9 := ClassRegistry.register r8.1 "isotonic" CalibratorClass.isotonic
  let r10 := ClassRegistry.register r9.1 "isotonic-multiclass" CalibratorClass.isotonicMulticlass
  r10.1

/-! ### Spec-side formulations

The following definitions transcribe the specification's own wording of the
fitted quantities, to be compared with the source embeddings above. -/

/-- Spec wording, multiclass fit: "gather the score corresponding to each
calibration point's true class (masked entries excluded)", the score being
the negated probability. -/
def multiclassTaskScores (uCol : List (List ℚ)) (tCol : List ℕ) (mCol : List Bool) : List ℚ :=
  (zip3 uCol tCol mCol).filterMap (fun c =>
    if c.2.2 then some (-(c.1.getD c.2.1 0)) else none)

/-- Spec wording, regression fit: interval bounds `[pred − unc/2, pred + unc/2]`
and nonconformity score `max(lower_bound − target, target − upper_bound)`,
masked entries excluded. -/
def regressionTaskScores (pCol uCol tCol : List ℚ) (mCol : List Bool) : List ℚ :=
  (zip3 (pCol.zip uCol) tCol mCol).filterMap (fun c =>
    if c.2.2 then some (max ((c.1.1 - c.1.2 / 2) - c.2.1) (c.2.1 - (c.1.1 + c.1.2 / 2)))
    else none)

/-- Spec wording, multilabel fit: the minimum nonconformity score among a
row's zero-labeled unmasked entries, masked-out entries excluded via a
`+inf` fill. -/
def rowMinIn (t : List ℤ) (u : List ℚ) (m : List Bool) : ERat :=
  ((zip3 t u m).filterMap (fun c => if c.1 = 0 ∧ c.2.2 then some (-c.2.1) else none)).foldr
    (fun x a => min (toERat x) a) ⊤

/-- Spec wording, multilabel fit: the maximum nonconformity score among a
row's one-labeled unmasked entries, masked-out entries excluded via a
`-inf` fill. -/
def rowMaxOut (t : List ℤ) (u : List ℚ) (m : List Bool) : ERat :=
  ((zip3 t u m).filterMap (fun c => if c.1 = 1 ∧ c.2.2 then some (-c.2.1) else none)).foldr
    (fun x a => max (toERat x) a) ⊥

/-! ### Generic helper lemmas -/

lemma getD_map_eq {α β : Type} (f : α → β) (r : List α) (j : ℕ) (d : α) :
    (r.map f).getD j (f d) = f (r.getD j d) := by
  rcases Nat.lt_or_ge j r.length with h | h
  · simp [List.getD_eq_getElem?_getD, List.getElem?_eq_getElem, h]
  · rw [List.getD_eq_getElem?_getD, List.getD_eq_getElem?_getD,
      List.getElem?_eq_none (by simpa using h), List.getElem?_eq_none h]
    rfl

lemma maskFilter_nil_right {α : Type} (xs : List α) : maskFilter xs [] = [] := by
  cases xs <;> rfl

lemma maskFilter_length {α : Type} (xs : List α) (m : List Bool)
    (h : xs.length = m.length) : (maskFilter xs m).length = m.count true := by
  induction m generalizing xs with
  | nil =>
    cases xs with
    | nil => rfl
    | cons x xs' => simp at h
  | cons b bs ih =>
    cases xs with
    | nil => simp at h
    | cons x xs' =>
      have := ih xs' (by simpa using h)
      cases b <;> simp [maskFilter, this, List.count_cons]

lemma maskFilter_congr {α : Type} (xs ys : List α) (m : List Bool)
    (hx : xs.length = m.length) (hy : ys.length = m.length)
    (h : ∀ i d, m.getD i false = true → xs.getD i d = ys.getD i d) :
    maskFilter xs m = maskFilter ys m := by
  induction m generalizing xs ys with
  | nil => rw [maskFilter_nil_right, maskFilter_nil_right]
  | cons b bs ih =>
    cases xs with
    | nil => simp at hx
    | cons x xs' =>
      cases ys with
      | nil => simp at hy
      | cons y ys' =>
        have htail : maskFilter xs' bs = maskFilter ys' bs :=
          ih xs' ys' (by simpa using hx) (by simpa using hy)
            (fun i d hm => by simpa using h (i + 1) d (by simpa using hm))
        cases b with
        | false => simpa [maskFilter] using htail
        | true =>
          have h0 : x = y := by simpa using h 0 x rfl
          simp [maskFilter, h0, htail]

lemma maskFilter_replicate_true {α : Type} (xs : List α) (n : ℕ) :
    maskFilter xs (List.replicate n true) = xs.take n := by
  induction n generalizing xs with
  | zero => rw [List.replicate_zero, maskFilter_nil_right, List.take_zero]
  | succ k ih =>
    cases xs with
    | nil => rfl
    | cons x xs' => simp [List.replicate_succ, maskFilter, ih]

lemma multiclass_gather_spec (uCol : List (List ℚ)) (tCol : List ℕ) (mCol : List Bool)
    (hu : uCol.length = mCol.length) (ht : tCol.length = mCol.length) :
    ((maskFilter (uCol.map (fun r => r.map Neg.neg)) mCol).zip (maskFilter tCol mCol)).map
        (fun p => p.1.getD p.2 0)
      = multiclassTaskScores uCol tCol mCol := by
  induction mCol generalizing uCol tCol with
  | nil =>
    rw [maskFilter_nil_right, maskFilter_nil_right]
    cases uCol with
    | nil => rfl
    | cons u us => cases tCol <;> rfl
  | cons b bs ih =>
    cases uCol with
    | nil => simp at hu
    | cons u us =>
      cases tCol with
      | nil => simp at ht
      | cons t ts =>
        have htail := ih us ts (by simpa using hu) (by simpa using ht)
        have hcell : (u.map Neg.neg).getD t (0 : ℚ) = -(u.getD t 0) := by
          have := getD_map_eq (Neg.neg : ℚ → ℚ) u t 0
          simpa using this
        cases b with
        | false => simpa [maskFilter, multiclassTaskScores, zip3] using htail
        | true =>
          have hcons :
              ((maskFilter ((u :: us).map (fun r => r.map Neg.neg)) (true :: bs)).zip
                  (maskFilter (t :: ts) (true :: bs))).map
                  (fun p : List ℚ × ℕ => p.1.getD p.2 0)
                = (u.map Neg.neg).getD t 0 ::
                  ((maskFilter (us.map (fun r => r.map Neg.neg)) bs).zip
                    (maskFilter ts bs)).map (fun p : List ℚ × ℕ => p.1.getD p.2 0) := by
            simp [maskFilter]
          rw [hcons, hcell, htail]
          simp [multiclassTaskScores, zip3]

lemma regression_scores_spec (pCol uCol tCol : List ℚ) (mCol : List Bool) :
    zipWith3 (fun lo hi t => max (lo - t) (t - hi))
        (((maskFilter pCol mCol).zip (maskFilter uCol mCol)).map (fun p => p.1 + (-1 / 2) * p.2))
        (((maskFilter pCol mCol).zip (maskFilter uCol mCol)).map (fun p => p.1 + (1 / 2) * p.2))
        (maskFilter tCol mCol)
      = regressionTaskScores pCol uCol tCol mCol := by
  induction mCol generalizing pCol uCol tCol with
  | nil =>
    rw [maskFilter_nil_right, maskFilter_nil_right, maskFilter_nil_right]
    rw [show regressionTaskScores pCol uCol tCol [] = [] from ?_]
    · rfl
    · rw [regressionTaskScores, show zip3 (pCol.zip uCol) tCol [] = [] from ?_]
      · rfl
      · cases pCol.zip uCol <;> cases tCol <;> rfl
  | cons b bs ih =>
    cases pCol with
    | nil => cases tCol <;> simp [maskFilter, regressionTaskScores, zip3, zipWith3]
    | cons p ps =>
      cases uCol with
      | nil =>
        cases tCol <;>
          simp [maskFilter, regressionTaskScores, zip3, zipWith3, maskFilter_nil_right] <;>
          cases b <;>
          simp [maskFilter, regressionTaskScores, zip3, zipWith3, maskFilter_nil_right] <;>
          cases maskFilter tCol bs <;> simp [zipWith3]
      | cons u us =>
        cases tCol with
        | nil =>
          cases b <;> simp [maskFilter, regressionTaskScores, zip3, zipWith3]
        | cons t ts =>
          have htail := ih ps us ts
          cases b with
          | false => simpa [maskFilter, regressionTaskScores, zip3] using htail
          | true =>
            simp only [maskFilter, if_true, List.zip_cons_cons, List.map_cons, zipWith3,
              regressionTaskScores, zip3, List.filterMap_cons, if_pos trivial]
            refine congrArg₂ _ ?_ ?_
            · ring_nf
            · simpa [regressionTaskScores] using htail

lemma fitWith_getElem? (scoreFn : List (List (List ℚ)) → List (List (List ℚ))) (alpha : ℚ)
    (uncs : List (List (List ℚ))) (targets : List (List ℕ)) (mask : List (List Bool))
    (j : ℕ) (hj : j < (uncs.headD []).length) :
    (MulticlassConformalCalibrator.fitWith scoreFn alpha uncs targets mask)[j]?
      = some (MulticlassConformalCalibrator.fitTask alpha (col [] (scoreFn uncs) j)
          (col 0 targets j) (col false mask j)) := by
  rw [MulticlassConformalCalibrator.fitWith]
  rw [List.getElem?_map, List.getElem?_range hj]
  rfl

lemma ceil_toNat_eq (r : ℚ) (k : ℕ) (h1 : (k : ℚ) - 1 < r) (h2 : r ≤ (k : ℚ)) :
    (⌈r⌉).toNat = k := by
  have h : ⌈r⌉ = (k : ℤ) := by
    rw [Int.ceil_eq_iff]
    exact ⟨by exact_mod_cast h1, by exact_mod_cast h2⟩
  rw [h]
  exact Int.toNat_natCast k

lemma quantileHigher_eval {α : Type} [LinearOrder α] (d : α) (xs ys : List α) (q : ℚ)
    (k : ℕ) (x : α) (hperm : List.Perm xs ys) (hsort : ys.Sorted (· ≤ ·))
    (h1 : (k : ℚ) - 1 < q * ((xs.length : ℚ) - 1))
    (h2 : q * ((xs.length : ℚ) - 1) ≤ (k : ℚ))
    (hk : ys.getD k d = x) :
    quantileHigher d xs q = x := by
  have hsorteq : List.insertionSort (· ≤ ·) xs = ys :=
    List.eq_of_perm_of_sorted ((List.perm_insertionSort _ xs).trans hperm)
      (List.sorted_insertionSort _ xs) hsort
  rw [quantileHigher, hsorteq, ceil_toNat_eq _ k h1 h2, hk]

/-! ### ERat helper lemmas -/

lemma toERat_le_toERat {a b : ℚ} : toERat a ≤ toERat b ↔ a ≤ b := by
  simp [toERat]

lemma toERat_ne_bot (a : ℚ) : ¬ (toERat a = (⊥ : ERat)) := by
  simp [toERat]

lemma bot_le_ERat (x : ERat) : (⊥ : ERat) ≤ x := bot_le

lemma col_cellmap (g : List ℚ → List ℚ) (hg : g [] = []) (x : List (List (List ℚ))) (j : ℕ) :
    col [] (x.map (fun m => m.map g)) j = (col [] x j).map g := by
  simp only [col, List.map_map]
  refine List.map_congr_left (fun m _ => ?_)
  have h := getD_map_eq g m j []
  rw [hg] at h
  exact h

/-! ### Claim theorems -/

/-- Claim C1: for the multiclass conformal calibrator's fit, independently for
every task `j`, with `n` the number of mask-true calibration points for that
task: if `alpha ≥ 1/(n+1)` the quantile level used is
`ceil((n+1)*(1-alpha))/n`, otherwise the level is exactly `1` and the
non-fatal trivial-coverage warning flag is set while the quantile is still
computed; the per-task threshold is the upper-interpolated empirical quantile,
at that level, of the nonconformity scores (negated probabilities) gathered at
each calibration point's true class, with masked-out rows excluded. -/
theorem multiclass_fit_quantile_rule (alpha : ℚ) (uncs : List (List (List ℚ)))
    (targets : List (List ℕ)) (mask : List (List Bool)) (j n : ℕ) (gathered : List ℚ)
    (hj : j < (uncs.headD []).length)
    (hlu : uncs.length = mask.length) (hlt : targets.length = mask.length)
    (hn : n = (col false mask j).count true)
    (hg : gathered = multiclassTaskScores (col [] uncs j) (col 0 targets j) (col false mask j)) :
    (MulticlassConformalCalibrator.fit alpha uncs targets mask)[j]?
      = some (if 1 / ((n : ℚ) + 1) ≤ alpha
          then (quantileHigher 0 gathered ((⌈((n : ℚ) + 1) * (1 - alpha)⌉ : ℚ) / (n : ℚ)), false)
          else (quantileHigher 0 gathered 1, true)) := by
  rw [MulticlassConformalCalibrator.fit, fitWith_getElem? _ _ _ _ _ j hj]
  congr 1
  simp only [MulticlassConformalCalibrator.fitTask,
    MulticlassConformalCalibrator.nonconformity_scores]
  rw [col_cellmap (fun r => r.map Neg.neg) rfl]
  rw [multiclass_gather_spec _ _ _ (by simp [col, hlu]) (by simp [col, hlt])]
  rw [maskFilter_length _ _ (by simp [col, hlt]), ← hn, ← hg]

/-- Witness for C1: the multiclass unit-test data (`alpha = 1/2`, task `0`,
three calibration points): the fitted threshold is `-(2/5)` with no
trivial-coverage warning. -/
theorem multiclass_fit_quantile_rule_witness :
    (MulticlassConformalCalibrator.fit (1 / 2)
        [[[1/5, 3/10, 1/2], [1/10, 3/5, 3/10]],
         [[1/10, 3/5, 3/10], [2/5, 2/5, 1/5]],
         [[2/5, 2/5, 1/5], [1/5, 3/10, 1/2]]]
        [[2, 2], [1, 0], [0, 2]]
        [[true, true], [true, true], [true, true]])[0]?
      = some ((-(2/5) : ℚ), false) := by
  have h := multiclass_fit_quantile_rule (1 / 2)
    [[[1/5, 3/10, 1/2], [1/10, 3/5, 3/10]],
     [[1/10, 3/5, 3/10], [2/5, 2/5, 1/5]],
     [[2/5, 2/5, 1/5], [1/5, 3/10, 1/2]]]
    [[2, 2], [1, 0], [0, 2]]
    [[true, true], [true, true], [true, true]]
    0 3 [-(1/2), -(3/5), -(2/5)]
    (by decide) (by decide) (by decide) (by decide)
    (by norm_num [multiclassTaskScores, col, zip3, List.filterMap_cons])
  rw [h, if_pos (by norm_num)]
  have hc : (⌈(((3 : ℕ) : ℚ) + 1) * (1 - 1 / 2)⌉ : ℤ) = 2 := by
    rw [Int.ceil_eq_iff]
    norm_num
  rw [hc]
  rw [quantileHigher_eval 0 _ [-(3/5), -(1/2), -(2/5)] _ 2 (-(2/5))
    (List.Perm.swap _ _ _) (by norm_num [List.sorted_cons]) (by norm_num) (by norm_num) rfl]

lemma regressionFit_getElem? (alpha : ℚ) (preds uncs targets : List (List ℚ))
    (mask : List (List Bool)) (j : ℕ) (hj : j < (preds.headD []).length) :
    (RegressionConformalCalibrator.fit alpha preds uncs targets mask)[j]?
      = some (RegressionConformalCalibrator.fitTask alpha (col 0 preds j) (col 0 uncs j)
          (col 0 targets j) (col false mask j)) := by
  rw [RegressionConformalCalibrator.fit]
  rw [List.getElem?_map, List.getElem?_range hj]
  rfl

lemma zip_map_getD (row qhats : List ℚ) (k : ℕ) (hk : k < row.length)
    (hq : k < qhats.length) :
    ((row.zip qhats).map (fun p => p.1 + 2 * p.2)).getD k 0
      = row.getD k 0 + 2 * qhats.getD k 0 := by
  have hzip : k < (row.zip qhats).length := by
    rw [List.length_zip]
    omega
  rw [List.getD_eq_getElem?_getD, List.getElem?_map, List.getElem?_eq_getElem hzip]
  simp [List.getElem_zip, List.getD_eq_getElem?_getD, List.getElem?_eq_getElem, hk, hq]

/-- Claim C3: for the regression conformal calibrator, per task `j`: fit
computes interval bounds `[pred - unc/2, pred + unc/2]` for each unmasked
calibration point, scores each by `max(lower - target, target - upper)`, and
computes the threshold as the upper-interpolated quantile of these scores
under the same `n`/`alpha` quantile-level rule as the multiclass calibrator,
including the identical non-fatal trivial-coverage warning; apply returns a
calibrated width equal to the input uncertainty plus twice the task's fitted
threshold, for every test point, leaving the predictions unchanged. -/
theorem regression_fit_apply_rule (alpha : ℚ) (preds uncs targets : List (List ℚ))
    (mask : List (List Bool)) (j n : ℕ) (scores qhats : List ℚ)
    (tpreds tuncs : List (List ℚ)) (i k : ℕ)
    (hj : j < (preds.headD []).length)
    (hlt : targets.length = mask.length)
    (hn : n = (col false mask j).count true)
    (hs : scores = regressionTaskScores (col 0 preds j) (col 0 uncs j) (col 0 targets j)
      (col false mask j)) :
    (RegressionConformalCalibrator.fit alpha preds uncs targets mask)[j]?
        = some (if 1 / ((n : ℚ) + 1) ≤ alpha
            then (quantileHigher 0 scores ((⌈((n : ℚ) + 1) * (1 - alpha)⌉ : ℚ) / (n : ℚ)), false)
            else (quantileHigher 0 scores 1, true))
      ∧ (RegressionConformalCalibrator.apply qhats tpreds tuncs).1 = tpreds
      ∧ (i < tuncs.length → k < qhats.length → k < (tuncs.getD i []).length →
          ((RegressionConformalCalibrator.apply qhats tpreds tuncs).2.getD i []).getD k 0
            = (tuncs.getD i []).getD k 0 + 2 * qhats.getD k 0) := by
  refine ⟨?_, rfl, ?_⟩
  · rw [regressionFit_getElem? _ _ _ _ _ _ hj]
    congr 1
    simp only [RegressionConformalCalibrator.fitTask]
    rw [regression_scores_spec]
    rw [maskFilter_length _ _ (by simp [col, hlt]), ← hn, ← hs]
  · intro hi hk hku
    simp only [RegressionConformalCalibrator.apply]
    rw [List.getD_eq_getElem?_getD ((List.map _ tuncs)) i, List.getElem?_map,
      List.getElem?_eq_getElem hi]
    have hrow : tuncs[i] = tuncs.getD i [] := by
      rw [List.getD_eq_getElem?_getD, List.getElem?_eq_getElem hi]
      rfl
    simp only [Option.map_some, Option.getD_some, hrow]
    exact zip_map_getD _ _ _ hku hk

/-- Witness for C3: a two-point, one-task calibration set at `alpha = 1/2`
(threshold `0`, no warning), and an `apply` call with margin `3` mapping an
uncertainty of `5` to `5 + 2*3 = 11`. -/
theorem regression_fit_apply_rule_witness :
    (RegressionConformalCalibrator.fit (1/2) [[0], [1]] [[2], [4]] [[1], [1]]
        [[true], [true]])[0]? = some ((0 : ℚ), false)
      ∧ (RegressionConformalCalibrator.apply [3] [[7]] [[5]]).1 = [[7]]
      ∧ ((RegressionConformalCalibrator.apply [3] [[7]] [[5]]).2.getD 0 []).getD 0 0
          = (11 : ℚ) := by
  have h := regression_fit_apply_rule (1/2) [[0], [1]] [[2], [4]] [[1], [1]]
    [[true], [true]] 0 2 [0, -2] [3] [[7]] [[5]] 0 0
    (by decide) (by decide) (by decide)
    (by norm_num [regressionTaskScores, col, zip3, List.filterMap_cons])
  obtain ⟨h1, h2, h3⟩ := h
  refine ⟨?_, h2, ?_⟩
  · rw [h1, if_pos (by norm_num)]
    have hc : (⌈(((2 : ℕ) : ℚ) + 1) * (1 - 1/2)⌉ : ℤ) = 2 := by
      rw [Int.ceil_eq_iff]
      norm_num
    rw [hc]
    rw [quantileHigher_eval 0 _ [-2, 0] _ 1 0 (List.Perm.swap _ _ _)
      (by norm_num [List.sorted_cons]) (by norm_num) (by norm_num) rfl]
  · have h4 := h3 (by decide) (by decide) (by decide)
    rw [h4]
    norm_num

lemma zipWith3_map_same {α β γ δ ε : Type} (f : β → γ → δ → ε) (a : α → β) (b : α → γ)
    (c : α → δ) (l : List α) :
    zipWith3 f (l.map a) (l.map b) (l.map c) = l.map (fun x => f (a x) (b x) (c x)) := by
  induction l with
  | nil => rfl
  | cons x xs ih => simp [zipWith3, ih]

lemma maskFilter_all {α : Type} (xs : List α) (n : ℕ) (h : xs.length = n) :
    maskFilter xs (List.replicate n true) = xs := by
  rw [maskFilter_replicate_true, ← h, List.take_length]

lemma regression_fit_range (alpha : ℚ) (fp fu ft : ℕ → ℚ) (n : ℕ) (hn : 0 < n) :
    RegressionConformalCalibrator.fit alpha
        ((List.range n).map (fun i => [fp i]))
        ((List.range n).map (fun i => [fu i]))
        ((List.range n).map (fun i => [ft i]))
        (List.replicate n [true])
      = [RegressionConformalCalibrator.fitTask alpha ((List.range n).map fp)
          ((List.range n).map fu) ((List.range n).map ft) (List.replicate n true)] := by
  have hT : ((((List.range n).map (fun i => [fp i])).headD []) : List ℚ).length = 1 := by
    rw [List.headD_eq_head?_getD, List.head?_map, List.head?_eq_getElem?,
      List.getElem?_range hn]
    rfl
  have hcol : ∀ (f : ℕ → ℚ), col 0 ((List.range n).map (fun i => [f i])) 0
      = (List.range n).map f := by
    intro f
    simp [col, List.map_map]
  have hmask : col false (List.replicate n [true]) 0 = List.replicate n true := by
    simp [col]
  rw [RegressionConformalCalibrator.fit, hT,
    show List.range 1 = [0] from rfl, List.map_cons, List.map_nil,
    hcol, hcol, hcol, hmask]

lemma regression_fitTask_range (alpha : ℚ) (fp fu ft g : ℕ → ℚ) (n : ℕ)
    (hg : ∀ i ∈ List.range n,
      max ((fp i + (-1 / 2) * fu i) - ft i) (ft i - (fp i + (1 / 2) * fu i)) = g i) :
    RegressionConformalCalibrator.fitTask alpha ((List.range n).map fp)
        ((List.range n).map fu) ((List.range n).map ft) (List.replicate n true)
      = (if 1 / ((n : ℚ) + 1) ≤ alpha
          then (quantileHigher 0 ((List.range n).map g)
            ((⌈((n : ℚ) + 1) * (1 - alpha)⌉ : ℚ) / (n : ℚ)), false)
          else (quantileHigher 0 ((List.range n).map g) 1, true)) := by
  simp only [RegressionConformalCalibrator.fitTask]
  rw [maskFilter_all _ n (by simp), maskFilter_all _ n (by simp), maskFilter_all _ n (by simp)]
  have hlow : ((((List.range n).map fp).zip ((List.range n).map fu)).map
      (fun p => p.1 + (-1 / 2) * p.2)) = (List.range n).map (fun i => fp i + (-1 / 2) * fu i) := by
    rw [List.zip_map', List.map_map]
    rfl
  have hup : ((((List.range n).map fp).zip ((List.range n).map fu)).map
      (fun p => p.1 + (1 / 2) * p.2)) = (List.range n).map (fun i => fp i + (1 / 2) * fu i) := by
    rw [List.zip_map', List.map_map]
    rfl
  rw [hlow, hup, zipWith3_map_same, List.map_congr_left hg]
  simp

lemma regression_apply_range (qh : ℚ) (ftu : ℕ → ℚ) (n : ℕ) (tpreds : List (List ℚ)) :
    (RegressionConformalCalibrator.apply [qh] tpreds
        ((List.range n).map (fun j => [ftu j]))).2
      = (List.range n).map (fun j => [ftu j + 2 * qh]) := by
  simp [RegressionConformalCalibrator.apply, List.map_map]

/-- Claim C4: regression conformal literal instance.  With calibration
predictions `0..99` (one task), calibration uncertainties `preds/10`,
calibration targets `preds+10`, an all-true mask and `alpha = 1/10`, applying
the fitted calibrator to test uncertainties `arange(100,200)/10` yields
calibrated widths `arange(29.2, 39.1, 0.1)` (the 100-term progression
`29.2 + j/10`); with the same setup except all uncertainties zero, every
calibrated width equals exactly `20`. -/
theorem regression_conformal_literal :
    (RegressionConformalCalibrator.apply
          ((RegressionConformalCalibrator.fit (1/10)
              ((List.range 100).map (fun i : ℕ => [(i : ℚ)]))
              ((List.range 100).map (fun i : ℕ => [(i : ℚ) / 10]))
              ((List.range 100).map (fun i : ℕ => [(i : ℚ) + 10]))
              (List.replicate 100 [true])).map Prod.fst)
          ((List.range 100).map (fun i : ℕ => [(i : ℚ)]))
          ((List.range 100).map (fun j : ℕ => [(100 + (j : ℚ)) / 10]))).2
        = (List.range 100).map (fun j : ℕ => [146/5 + (j : ℚ) / 10])
      ∧ (RegressionConformalCalibrator.apply
          ((RegressionConformalCalibrator.fit (1/10)
              ((List.range 100).map (fun i : ℕ => [(i : ℚ)]))
              (List.replicate 100 [(0 : ℚ)])
              ((List.range 100).map (fun i : ℕ => [(i : ℚ) + 10]))
              (List.replicate 100 [true])).map Prod.fst)
          ((List.range 100).map (fun i : ℕ => [(i : ℚ)]))
          (List.replicate 100 [(0 : ℚ)])).2
        = List.replicate 100 [(20 : ℚ)] := by
  constructor
  · rw [regression_fit_range _ _ _ _ _ (by norm_num)]
    rw [regression_fitTask_range (1/10) _ _ _ (fun i : ℕ => 10 - (i : ℚ)/20) 100
      (fun i _ => by rw [max_eq_right (by linarith)]; ring)]
    rw [if_pos (by norm_num)]
    have hc : (⌈(((100 : ℕ) : ℚ) + 1) * (1 - 1/10)⌉ : ℤ) = 91 := by
      rw [Int.ceil_eq_iff]
      norm_num
    rw [hc]
    have hq : quantileHigher 0 ((List.range 100).map (fun i : ℕ => 10 - (i : ℚ)/20))
        (((91 : ℤ) : ℚ) / ((100 : ℕ) : ℚ)) = 48/5 := by
      refine quantileHigher_eval 0 _
        ((List.range 100).map (fun i : ℕ => 101/20 + (i : ℚ)/20)) _ 91 _ ?_ ?_ ?_ ?_ ?_
      · have hrev : ((List.range 100).map (fun i : ℕ => 101/20 + (i : ℚ)/20)).reverse
            = (List.range 100).map (fun i : ℕ => 10 - (i : ℚ)/20) := by
          rw [List.reverse_map, List.range_eq_range', List.reverse_range', List.map_map]
          rw [← List.range_eq_range']
          refine List.map_congr_left (fun i hi => ?_)
          have hi' : i < 100 := List.mem_range.mp hi
          have hcast : ((0 + 100 - 1 - i : ℕ) : ℚ) = 99 - (i : ℚ) := by
            have h99 : (0 + 100 - 1 - i : ℕ) = 99 - i := by omega
            rw [h99, Nat.cast_sub (by omega)]
            norm_num
          simp only [Function.comp, hcast]
          ring
        rw [← hrev]
        exact (List.reverse_perm _).symm
      · refine List.pairwise_map.mpr ?_
        refine (List.pairwise_lt_range 100).imp ?_
        intro a b hab
        have hle : (a : ℚ) ≤ (b : ℚ) := by exact_mod_cast Nat.le_of_lt hab
        linarith
      · rw [List.length_map, List.length_range]
        push_cast
        norm_num
      · rw [List.length_map, List.length_range]
        push_cast
        norm_num
      · rw [List.getD_eq_getElem?_getD, List.getElem?_map, List.getElem?_range (by norm_num)]
        norm_num
    rw [hq]
    rw [List.map_cons, List.map_nil]
    rw [regression_apply_range]
    refine List.map_congr_left (fun j hj => ?_)
    norm_num
    ring
  · have hzero : List.replicate 100 [(0 : ℚ)]
        = (List.range 100).map (fun _ : ℕ => [(0 : ℚ)]) := by
      rw [List.map_const', List.length_range]
    rw [hzero]
    rw [regression_fit_range _ _ _ _ _ (by norm_num)]
    rw [regression_fitTask_range (1/10) _ _ _ (fun _ : ℕ => (10 : ℚ)) 100
      (fun i _ => by rw [max_eq_right (by linarith)]; ring)]
    rw [if_pos (by norm_num)]
    have hc : (⌈(((100 : ℕ) : ℚ) + 1) * (1 - 1/10)⌉ : ℤ) = 91 := by
      rw [Int.ceil_eq_iff]
      norm_num
    rw [hc]
    have hq : quantileHigher 0 ((List.range 100).map (fun _ : ℕ => (10 : ℚ)))
        (((91 : ℤ) : ℚ) / ((100 : ℕ) : ℚ)) = 10 := by
      refine quantileHigher_eval 0 _ ((List.range 100).map (fun _ : ℕ => (10 : ℚ))) _ 91 _
        (List.Perm.refl _) ?_ ?_ ?_ ?_
      · refine List.pairwise_map.mpr ?_
        exact (List.pairwise_lt_range 100).imp (fun _ => le_refl 10)
      · rw [List.length_map, List.length_range]
        push_cast
        norm_num
      · rw [List.length_map, List.length_range]
        push_cast
        norm_num
      · rw [List.getD_eq_getElem?_getD, List.getElem?_map, List.getElem?_range (by norm_num)]
        norm_num
    rw [hq, List.map_cons, List.map_nil, regression_apply_range]
    trans (List.range 100).map (fun _ : ℕ => [(20 : ℚ)])
    · exact List.map_congr_left (fun j hj => by norm_num)
    · rw [List.map_const', List.length_range]


lemma zip_map_append {α β : Type} (f g : List α → List β) (l : List (List α)) :
    ((l.map f).zip (l.map g)).map (fun p => p.1 ++ p.2) = l.map (fun x => f x ++ g x) := by
  rw [List.zip_map', List.map_map]
  rfl

lemma fillRow_fold_min_spec (t : List ℤ) (u : List ℚ) (m : List Bool) :
    (fillRow ((t.zip u).map (fun c => if c.1 = 0 then toERat (-c.2) else (⊤ : ERat))) m
        (⊤ : ERat)).foldr min (⊤ : ERat)
      = rowMinIn t u m := by
  induction t generalizing u m with
  | nil => cases u <;> cases m <;> rfl
  | cons t0 ts ih =>
    cases u with
    | nil => cases m <;> rfl
    | cons u0 us =>
      cases m with
      | nil => rfl
      | cons m0 ms =>
        have htail := ih us ms
        have hcons : fillRow (((t0 :: ts).zip (u0 :: us)).map
            (fun c => if c.1 = 0 then toERat (-c.2) else (⊤ : ERat))) (m0 :: ms) (⊤ : ERat)
            = (if m0 then (if t0 = 0 then toERat (-u0) else (⊤ : ERat)) else (⊤ : ERat)) ::
              fillRow ((ts.zip us).map
                (fun c => if c.1 = 0 then toERat (-c.2) else (⊤ : ERat))) ms (⊤ : ERat) := by
          simp [fillRow]
        rw [hcons, List.foldr_cons, htail]
        cases m0 with
        | false => simp [rowMinIn, zip3, min_eq_right le_top]
        | true =>
          by_cases h0 : t0 = 0
          · simp [rowMinIn, zip3, h0]
          · simp [rowMinIn, zip3, h0, min_eq_right le_top]

lemma fillRow_fold_max_spec (t : List ℤ) (u : List ℚ) (m : List Bool) :
    (fillRow ((t.zip u).map (fun c => if c.1 = 1 then toERat (-c.2) else (⊥ : ERat))) m
        (⊥ : ERat)).foldr max (⊥ : ERat)
      = rowMaxOut t u m := by
  induction t generalizing u m with
  | nil => cases u <;> cases m <;> rfl
  | cons t0 ts ih =>
    cases u with
    | nil => cases m <;> rfl
    | cons u0 us =>
      cases m with
      | nil => rfl
      | cons m0 ms =>
        have htail := ih us ms
        have hcons : fillRow (((t0 :: ts).zip (u0 :: us)).map
            (fun c => if c.1 = 1 then toERat (-c.2) else (⊥ : ERat))) (m0 :: ms) (⊥ : ERat)
            = (if m0 then (if t0 = 1 then toERat (-u0) else (⊥ : ERat)) else (⊥ : ERat)) ::
              fillRow ((ts.zip us).map
                (fun c => if c.1 = 1 then toERat (-c.2) else (⊥ : ERat))) ms (⊥ : ERat) := by
          simp [fillRow]
        rw [hcons, List.foldr_cons, htail]
        cases m0 with
        | false => simp [rowMaxOut, zip3, max_eq_right bot_le]
        | true =>
          by_cases h0 : t0 = 1
          · simp [rowMaxOut, zip3, h0]
          · simp [rowMaxOut, zip3, h0, max_eq_right bot_le]

lemma zip_fill_fold_min (targets : List (List ℤ)) (uncs : List (List ℚ))
    (mask : List (List Bool)) :
    ((((targets.zip uncs).map (fun p =>
          (p.1.zip p.2).map (fun c => if c.1 = 0 then toERat (-c.2) else (⊤ : ERat)))).zip
        mask).map (fun p => fillRow p.1 p.2 (⊤ : ERat))).map
        (fun r => r.foldr min (⊤ : ERat))
      = zipWith3 rowMinIn targets uncs mask := by
  induction targets generalizing uncs mask with
  | nil => cases uncs <;> cases mask <;> rfl
  | cons t0 ts ih =>
    cases uncs with
    | nil => cases mask <;> rfl
    | cons u0 us =>
      cases mask with
      | nil => rfl
      | cons m0 ms =>
        simp only [List.zip_cons_cons, List.map_cons, zipWith3]
        rw [fillRow_fold_min_spec, ih]

lemma zip_fill_fold_max (targets : List (List ℤ)) (uncs : List (List ℚ))
    (mask : List (List Bool)) :
    ((((targets.zip uncs).map (fun p =>
          (p.1.zip p.2).map (fun c => if c.1 = 1 then toERat (-c.2) else (⊥ : ERat)))).zip
        mask).map (fun p => fillRow p.1 p.2 (⊥ : ERat))).map
        (fun r => r.foldr max (⊥ : ERat))
      = zipWith3 rowMaxOut targets uncs mask := by
  induction targets generalizing uncs mask with
  | nil => cases uncs <;> cases mask <;> rfl
  | cons t0 ts ih =>
    cases uncs with
    | nil => cases mask <;> rfl
    | cons u0 us =>
      cases mask with
      | nil => rfl
      | cons m0 ms =>
        simp only [List.zip_cons_cons, List.map_cons, zipWith3]
        rw [fillRow_fold_max_spec, ih]

lemma multilabel_fit_eq_quantiles (alpha : ℚ) (uncs : List (List ℚ))
    (targets : List (List ℤ)) (mask : List (List Bool))
    (hT : 2 ≤ (targets.headD []).length)
    (hlu : uncs.length = targets.length) (hlm : mask.length = targets.length)
    (hz : ∀ t ∈ targets, (0 : ℤ) ∈ t) (ho : ∀ t ∈ targets, (1 : ℤ) ∈ t) :
    MultilabelConformalCalibrator.fit alpha uncs targets mask
      = some
        { tin := quantileHigher ⊥ (zipWith3 rowMinIn targets uncs mask) (alpha / 2)
          tout := quantileHigher ⊥ (zipWith3 rowMaxOut targets uncs mask) (1 - alpha / 2) } := by
  have hzr : (targets.zip uncs).filter (fun p => p.1.any (fun t => t == 0))
      = targets.zip uncs := by
    refine List.filter_eq_self.mpr (fun p hp => ?_)
    have hmem : p.1 ∈ targets := (List.of_mem_zip hp).1
    exact List.any_eq_true.mpr ⟨0, hz p.1 hmem, by simp⟩
  have hor : (targets.zip uncs).filter (fun p => p.1.any (fun t => t == 1))
      = targets.zip uncs := by
    refine List.filter_eq_self.mpr (fun p hp => ?_)
    have hmem : p.1 ∈ targets := (List.of_mem_zip hp).1
    exact List.any_eq_true.mpr ⟨1, ho p.1 hmem, by simp⟩
  have hlen : (targets.zip uncs).length = mask.length := by
    rw [List.length_zip, hlu, hlm]
    exact min_self _
  have hlin : ((targets.zip uncs).map (fun p =>
      (p.1.zip p.2).map (fun c => if c.1 = 0 then toERat (-c.2) else (⊤ : ERat)))).length
      = mask.length := by
    simp [hlen]
  have hlout : ((targets.zip uncs).map (fun p =>
      (p.1.zip p.2).map (fun c => if c.1 = 1 then toERat (-c.2) else (⊥ : ERat)))).length
      = mask.length := by
    simp [hlen]
  simp only [MultilabelConformalCalibrator.fit, hzr, hor]
  rw [if_neg (by omega)]
  rw [if_neg (not_not_intro ⟨Or.inl hlin, Or.inl hlout⟩)]
  simp only [maskedFill]
  rw [if_pos hlin, if_pos hlout]
  rw [zip_fill_fold_min, zip_fill_fold_max]

/-- Claim C2: for the multilabel conformal calibrator (on well-shaped inputs
whose every row has both a zero and a one label, so that the row partition of
the source keeps every row): fit sets `t_out` to the `(1 - alpha/2)`
upper-interpolated quantile of the per-row maxima of nonconformity scores
(`-probability`) over one-labeled unmasked entries (masked-out entries
excluded via a `-inf` fill), and `t_in` to the `alpha/2` quantile of the
per-row minima over zero-labeled unmasked entries (`+inf` fill); apply marks
each class in the in-set iff its score is `≤ t_in` and in the out-set iff its
score is `≤ t_out`, returning the in-set and out-set indicators concatenated
along the class axis, with the predictions passed through unchanged. -/
theorem multilabel_fit_apply_rule (alpha : ℚ) (uncs : List (List ℚ))
    (targets : List (List ℤ)) (mask : List (List Bool)) (f : MultilabelFitted)
    (tpreds tuncs : List (List ℚ))
    (hT : 2 ≤ (targets.headD []).length)
    (hlu : uncs.length = targets.length) (hlm : mask.length = targets.length)
    (hz : ∀ t ∈ targets, (0 : ℤ) ∈ t) (ho : ∀ t ∈ targets, (1 : ℤ) ∈ t) :
    MultilabelConformalCalibrator.fit alpha uncs targets mask
        = some
          { tin := quantileHigher ⊥ (zipWith3 rowMinIn targets uncs mask) (alpha / 2)
            tout := quantileHigher ⊥ (zipWith3 rowMaxOut targets uncs mask) (1 - alpha / 2) }
      ∧ MultilabelConformalCalibrator.apply f tpreds tuncs
        = (tpreds, tuncs.map (fun r =>
            r.map (fun p => if toERat (-p) ≤ f.tin then (1 : ℤ) else 0)
              ++ r.map (fun p => if toERat (-p) ≤ f.tout then (1 : ℤ) else 0))) := by
  constructor
  · exact multilabel_fit_eq_quantiles alpha uncs targets mask hT hlu hlm hz ho
  · simp only [MultilabelConformalCalibrator.apply,
      MultilabelConformalCalibrator.nonconformity_scores]
    rw [zip_map_append]
    refine congrArg _ ?_
    rw [List.map_map]
    refine List.map_congr_left (fun r _ => ?_)
    show (r.map Neg.neg).map _ ++ (r.map Neg.neg).map _ = _
    rw [List.map_map, List.map_map]
    rfl

lemma min_toERat_top (a : ℚ) : min (toERat a) (⊤ : ERat) = toERat a := min_eq_left le_top

lemma max_toERat_bot (a : ℚ) : max (toERat a) (⊥ : ERat) = toERat a := max_eq_left bot_le

lemma min_toERat (a b : ℚ) : min (toERat a) (toERat b) = toERat (min a b) := by
  rcases le_total a b with h | h
  · rw [min_eq_left (toERat_le_toERat.mpr h), min_eq_left h]
  · rw [min_eq_right (toERat_le_toERat.mpr h), min_eq_right h]

lemma max_toERat (a b : ℚ) : max (toERat a) (toERat b) = toERat (max a b) := by
  rcases le_total a b with h | h
  · rw [max_eq_right (toERat_le_toERat.mpr h), max_eq_right h]
  · rw [max_eq_left (toERat_le_toERat.mpr h), max_eq_left h]

/-- Witness for C2: the multilabel unit-test data (`alpha = 1/10`): the fitted
thresholds are `t_in = 0` and `t_out = -1`, and applying them to the identity
test probabilities yields the expected concatenated indicator rows. -/
theorem multilabel_fit_apply_rule_witness :
    MultilabelConformalCalibrator.fit (1/10)
        [[0, 1, 0], [1, 0, 0], [0, 0, 1]]
        [[0, 1, 0], [1, 0, 0], [0, 0, 1]]
        [[true, true, true], [true, true, true], [true, true, true]]
      = some ⟨toERat 0, toERat (-1)⟩
    ∧ MultilabelConformalCalibrator.apply ⟨toERat 0, toERat (-1)⟩
        [[1, 0, 0], [0, 1, 0], [0, 0, 1]] [[1, 0, 0], [0, 1, 0], [0, 0, 1]]
      = ([[1, 0, 0], [0, 1, 0], [0, 0, 1]],
        [[1, 1, 1, 1, 0, 0], [1, 1, 1, 0, 1, 0], [1, 1, 1, 0, 0, 1]]) := by
  have h := multilabel_fit_apply_rule (1/10)
    [[0, 1, 0], [1, 0, 0], [0, 0, 1]]
    [[0, 1, 0], [1, 0, 0], [0, 0, 1]]
    [[true, true, true], [true, true, true], [true, true, true]]
    ⟨toERat 0, toERat (-1)⟩
    [[1, 0, 0], [0, 1, 0], [0, 0, 1]] [[1, 0, 0], [0, 1, 0], [0, 0, 1]]
    (by decide) (by decide) (by decide) (by decide) (by decide)
  obtain ⟨h1, h2⟩ := h
  constructor
  · rw [h1]
    have hin : zipWith3 rowMinIn
        ([[0, 1, 0], [1, 0, 0], [0, 0, 1]] : List (List ℤ))
        ([[0, 1, 0], [1, 0, 0], [0, 0, 1]] : List (List ℚ))
        [[true, true, true], [true, true, true], [true, true, true]]
        = [toERat 0, toERat 0, toERat 0] := by
      norm_num [rowMinIn, zip3, zipWith3, List.filterMap_cons, min_toERat, min_toERat_top]
    have hout : zipWith3 rowMaxOut
        ([[0, 1, 0], [1, 0, 0], [0, 0, 1]] : List (List ℤ))
        ([[0, 1, 0], [1, 0, 0], [0, 0, 1]] : List (List ℚ))
        [[true, true, true], [true, true, true], [true, true, true]]
        = [toERat (-1), toERat (-1), toERat (-1)] := by
      norm_num [rowMaxOut, zip3, zipWith3, List.filterMap_cons, max_toERat, max_toERat_bot]
    rw [hin, hout]
    have htin : quantileHigher ⊥ [toERat 0, toERat 0, toERat 0] (1/10/2) = toERat 0 := by
      refine quantileHigher_eval _ _ [toERat 0, toERat 0, toERat 0] _ 1 _ (List.Perm.refl _)
        (by simp [List.sorted_cons]) (by norm_num) (by norm_num) rfl
    have htout : quantileHigher ⊥ [toERat (-1), toERat (-1), toERat (-1)] (1 - 1/10/2)
        = toERat (-1) := by
      refine quantileHigher_eval _ _ [toERat (-1), toERat (-1), toERat (-1)] _ 2 _
        (List.Perm.refl _) (by simp [List.sorted_cons]) (by norm_num) (by norm_num) rfl
    rw [htin, htout]
  · rw [h2]
    norm_num [toERat_le_toERat]


lemma getD_replicate_self {α : Type} (k i : ℕ) (a : α) :
    (List.replicate k a).getD i a = a := by
  induction k generalizing i with
  | zero => rfl
  | succ n ih =>
    cases i with
    | zero => rfl
    | succ m => simpa [List.replicate_succ] using ih m

lemma map_getD_range {α : Type} (l : List α) (d : α) :
    (List.range l.length).map (fun i => l.getD i d) = l := by
  induction l with
  | nil => rfl
  | cons x xs ih =>
    rw [List.length_cons, List.range_succ_eq_map, List.map_cons, List.map_map]
    simp only [List.getD_cons_zero]
    refine congrArg _ ?_
    calc (List.range xs.length).map ((fun i => (x :: xs).getD i d) ∘ Nat.succ)
        = (List.range xs.length).map (fun i => xs.getD i d) :=
          List.map_congr_left (fun i _ => rfl)
      _ = xs := ih

lemma cumsum_replicate_zero (k : ℕ) (acc : ℚ) :
    cumsum acc (List.replicate k 0) = List.replicate k acc := by
  induction k generalizing acc with
  | zero => rfl
  | succ n ih => simp [List.replicate_succ, cumsum, ih]

lemma one_hot_getD (k a : ℕ) :
    ((1 : ℚ) :: List.replicate k 0).getD a 0 = if a = 0 then 1 else 0 := by
  cases a with
  | zero => rfl
  | succ m => simpa using getD_replicate_self k m (0 : ℚ)

lemma adaptive_scoresRow_one_hot (k : ℕ) :
    (AdaptiveMulticlassConformalCalibrator.scoresRow ((1 : ℚ) :: List.replicate k 0)).getD 0 0
      = 1 := by
  set p : List ℚ := (1 : ℚ) :: List.replicate k 0 with hp
  have hlen : p.length = k + 1 := by simp [hp]
  have hsortidx : List.insertionSort (fun a b => p.getD b 0 ≤ p.getD a 0)
      (List.range p.length) = List.range p.length := by
    refine List.Sorted.insertionSort_eq ?_
    refine List.pairwise_iff_forall_sublist.mpr ?_
    intro a b hab
    have hmem := hab.subset
    have hlt : a < b := by
      have := List.pairwise_lt_range p.length
      exact List.pairwise_iff_forall_sublist.mp this hab
    rw [one_hot_getD, one_hot_getD]
    have hb : ¬ (b = 0) := by omega
    rw [if_neg hb]
    split <;> norm_num
  have hsorted : (List.insertionSort (fun a b => p.getD b 0 ≤ p.getD a 0)
      (List.range p.length)).map (fun i => p.getD i 0) = p := by
    rw [hsortidx, map_getD_range]
  simp only [AdaptiveMulticlassConformalCalibrator.scoresRow]
  rw [hsortidx, map_getD_range]
  have hcums : cumsum 0 p = (1 : ℚ) :: List.replicate k 1 := by
    rw [hp]
    simp [cumsum, cumsum_replicate_zero]
  rw [hcums]
  rw [List.getD_eq_getElem?_getD, List.getElem?_map, List.getElem?_range (by omega)]
  rw [hlen, List.range_succ_eq_map, List.zip_cons_cons]
  simp only [Option.map_some', Option.getD_some]
  rw [List.find?_cons_of_pos _ (by simp)]

/-- Claim C6, amended: for every prediction row that is sorted descending and
one-hot confident (probability `1` on the top class, `0` elsewhere, i.e. the
row `1 :: replicate k 0` for any `k`), the adaptive multiclass nonconformity
score of the top class (descending sort, cumulative sum, scatter back) equals
the NEGATION of the standard multiclass nonconformity score of that class:
the adaptive score is the cumulative probability `1`, the standard score is
the negated probability `-1`.  (The claim asserted the two scores are equal;
they differ in sign.) -/
theorem adaptive_one_hot_neg_standard (k : ℕ) :
    (((AdaptiveMulticlassConformalCalibrator.nonconformity_scores
        [[(1 : ℚ) :: List.replicate k 0]]).getD 0 []).getD 0 []).getD 0 0
      = - ((((MulticlassConformalCalibrator.nonconformity_scores
        [[(1 : ℚ) :: List.replicate k 0]]).getD 0 []).getD 0 []).getD 0 0) := by
  simp only [AdaptiveMulticlassConformalCalibrator.nonconformity_scores,
    MulticlassConformalCalibrator.nonconformity_scores, List.map_cons, List.map_nil,
    List.getD_cons_zero]
  rw [adaptive_scoresRow_one_hot]
  norm_num

/-- Counterexample to C6 as stated: for the already-sorted one-hot row
`[1, 0]`, the adaptive nonconformity score of the top class is `1` while the
standard multiclass score is `-1`; they are not equal. -/
theorem adaptive_one_hot_counterexample :
    ¬ ((((AdaptiveMulticlassConformalCalibrator.nonconformity_scores
          [[[(1 : ℚ), 0]]]).getD 0 []).getD 0 []).getD 0 0
        = (((MulticlassConformalCalibrator.nonconformity_scores
          [[[(1 : ℚ), 0]]]).getD 0 []).getD 0 []).getD 0 0) := by
  have h1 : (((AdaptiveMulticlassConformalCalibrator.nonconformity_scores
      [[[(1 : ℚ), 0]]]).getD 0 []).getD 0 []).getD 0 0 = 1 := by
    have h := adaptive_scoresRow_one_hot 1
    simp only [AdaptiveMulticlassConformalCalibrator.nonconformity_scores, List.map_cons,
      List.map_nil, List.getD_cons_zero]
    simpa using h
  have h2 : (((MulticlassConformalCalibrator.nonconformity_scores
      [[[(1 : ℚ), 0]]]).getD 0 []).getD 0 []).getD 0 0 = -1 := by
    norm_num [MulticlassConformalCalibrator.nonconformity_scores]
  rw [h1, h2]
  norm_num

lemma construct_fitted_none {P : Type} (alpha : ℚ) (s : CalState P)
    (h : (if 0 ≤ alpha ∧ alpha ≤ 1 then some (⟨alpha, none⟩ : CalState P) else none)
      = some s) : s.fitted = none := by
  by_cases hc : 0 ≤ alpha ∧ alpha ≤ 1
  · rw [if_pos hc] at h
    cases h
    rfl
  · rw [if_neg hc] at h
    simp at h

/-- Claim C7: configuration errors are raised immediately and synchronously:
constructing any conformal calibrator (multilabel, multiclass, adaptive,
regression) with `alpha` outside `[0, 1]` fails with a validation error
(`none`) at construction time, and calling the multilabel conformal
calibrator's fit with a task dimension smaller than `2` fails with a
validation error (`none`) at fit time. -/
theorem conformal_config_validation (alpha beta : ℚ) (uncs : List (List ℚ))
    (targets : List (List ℤ)) (mask : List (List Bool))
    (ha : ¬ (0 ≤ alpha ∧ alpha ≤ 1)) (hdim : (targets.headD []).length < 2) :
    MultilabelConformalCalibrator.construct alpha = none
      ∧ MulticlassConformalCalibrator.construct alpha = none
      ∧ AdaptiveMulticlassConformalCalibrator.construct alpha = none
      ∧ RegressionConformalCalibrator.construct alpha = none
      ∧ MultilabelConformalCalibrator.fit beta uncs targets mask = none := by
  refine ⟨?_, ?_, ?_, ?_, ?_⟩
  · rw [MultilabelConformalCalibrator.construct, if_neg ha]
  · rw [MulticlassConformalCalibrator.construct, if_neg ha]
  · rw [AdaptiveMulticlassConformalCalibrator.construct, if_neg ha]
  · rw [RegressionConformalCalibrator.construct, if_neg ha]
  · rw [MultilabelConformalCalibrator.fit, if_pos hdim]

/-- Witness for C7: `alpha = 2` is rejected by all four constructors, and a
single-task multilabel fit call is rejected. -/
theorem conformal_config_validation_witness :
    MultilabelConformalCalibrator.construct 2 = none
      ∧ MulticlassConformalCalibrator.construct 2 = none
      ∧ AdaptiveMulticlassConformalCalibrator.construct 2 = none
      ∧ RegressionConformalCalibrator.construct 2 = none
      ∧ MultilabelConformalCalibrator.fit (1/10) [[0]] [[0]] [[true]] = none :=
  conformal_config_validation 2 (1/10) [[0]] [[0]] [[true]] (by norm_num) (by decide)

/-- Claim C8: calling apply on a freshly constructed instance of any of the
four conformal calibrators, before any successful fit call, fails (`none`):
the fitted attributes `tin`/`tout`/`qhats` do not exist before fit. -/
theorem apply_before_fit_fails (alpha : ℚ)
    (s1 : CalState MultilabelFitted) (s2 s3 s4 : CalState (List ℚ))
    (p1 u1 : List (List ℚ)) (p2 u2 : List (List (List ℚ))) (p4 u4 : List (List ℚ))
    (h1 : MultilabelConformalCalibrator.construct alpha = some s1)
    (h2 : MulticlassConformalCalibrator.construct alpha = some s2)
    (h3 : AdaptiveMulticlassConformalCalibrator.construct alpha = some s3)
    (h4 : RegressionConformalCalibrator.construct alpha = some s4) :
    (MultilabelConformalCalibrator.applyState s1 p1 u1).2 = none
      ∧ (MulticlassConformalCalibrator.applyState s2 p2 u2).2 = none
      ∧ (AdaptiveMulticlassConformalCalibrator.applyState s3 p2 u2).2 = none
      ∧ (RegressionConformalCalibrator.applyState s4 p4 u4).2 = none := by
  rw [MultilabelConformalCalibrator.construct] at h1
  rw [MulticlassConformalCalibrator.construct] at h2
  rw [AdaptiveMulticlassConformalCalibrator.construct] at h3
  rw [RegressionConformalCalibrator.construct] at h4
  refine ⟨?_, ?_, ?_, ?_⟩
  · rw [MultilabelConformalCalibrator.applyState, construct_fitted_none alpha s1 h1]
    rfl
  · rw [MulticlassConformalCalibrator.applyState, construct_fitted_none alpha s2 h2]
    rfl
  · rw [AdaptiveMulticlassConformalCalibrator.applyState, construct_fitted_none alpha s3 h3]
    rfl
  · rw [RegressionConformalCalibrator.applyState, construct_fitted_none alpha s4 h4]
    rfl

/-- Witness for C8: the freshly constructed instances at `alpha = 1/2` all
reject apply. -/
theorem apply_before_fit_fails_witness :
    (MultilabelConformalCalibrator.applyState ⟨1/2, none⟩ [] []).2 = none
      ∧ (MulticlassConformalCalibrator.applyState ⟨1/2, none⟩ [] []).2 = none
      ∧ (AdaptiveMulticlassConformalCalibrator.applyState ⟨1/2, none⟩ [] []).2 = none
      ∧ (RegressionConformalCalibrator.applyState ⟨1/2, none⟩ [] []).2 = none :=
  apply_before_fit_fails (1/2) ⟨1/2, none⟩ ⟨1/2, none⟩ ⟨1/2, none⟩ ⟨1/2, none⟩ [] [] [] [] [] []
    (by norm_num [MultilabelConformalCalibrator.construct])
    (by norm_num [MulticlassConformalCalibrator.construct])
    (by norm_num [AdaptiveMulticlassConformalCalibrator.construct])
    (by norm_num [RegressionConformalCalibrator.construct])

/-- Claim C9: after a successful fit, apply is a pure function of the fitted
state and its inputs: for every fitted conformal calibrator, an apply call
leaves the object state (in particular the fitted `tin`/`tout`/`qhats`)
unchanged, returns the input predictions unchanged as the first component of
its result, its result is exactly the pure `apply` function of the fitted
parameters and the inputs, and a repeated apply call on the post-call state
with equal inputs returns the identical result. -/
theorem apply_pure_after_fit (s1 : CalState MultilabelFitted) (s2 s3 s4 : CalState (List ℚ))
    (f : MultilabelFitted) (q2 q3 q4 : List ℚ)
    (p1 u1 : List (List ℚ)) (p2 u2 : List (List (List ℚ))) (p4 u4 : List (List ℚ))
    (h1 : s1.fitted = some f) (h2 : s2.fitted = some q2) (h3 : s3.fitted = some q3)
    (h4 : s4.fitted = some q4) :
    ((MultilabelConformalCalibrator.applyState s1 p1 u1).1 = s1
      ∧ (MultilabelConformalCalibrator.applyState s1 p1 u1).2
          = some (MultilabelConformalCalibrator.apply f p1 u1)
      ∧ (MultilabelConformalCalibrator.apply f p1 u1).1 = p1
      ∧ MultilabelConformalCalibrator.applyState
          (MultilabelConformalCalibrator.applyState s1 p1 u1).1 p1 u1
        = MultilabelConformalCalibrator.applyState s1 p1 u1)
    ∧ ((MulticlassConformalCalibrator.applyState s2 p2 u2).1 = s2
      ∧ (MulticlassConformalCalibrator.applyState s2 p2 u2).2
          = some (MulticlassConformalCalibrator.apply q2 p2 u2)
      ∧ (MulticlassConformalCalibrator.apply q2 p2 u2).1 = p2
      ∧ MulticlassConformalCalibrator.applyState
          (MulticlassConformalCalibrator.applyState s2 p2 u2).1 p2 u2
        = MulticlassConformalCalibrator.applyState s2 p2 u2)
    ∧ ((AdaptiveMulticlassConformalCalibrator.applyState s3 p2 u2).1 = s3
      ∧ (AdaptiveMulticlassConformalCalibrator.applyState s3 p2 u2).2
          = some (AdaptiveMulticlassConformalCalibrator.apply q3 p2 u2)
      ∧ (AdaptiveMulticlassConformalCalibrator.apply q3 p2 u2).1 = p2
      ∧ AdaptiveMulticlassConformalCalibrator.applyState
          (AdaptiveMulticlassConformalCalibrator.applyState s3 p2 u2).1 p2 u2
        = AdaptiveMulticlassConformalCalibrator.applyState s3 p2 u2)
    ∧ ((RegressionConformalCalibrator.applyState s4 p4 u4).1 = s4
      ∧ (RegressionConformalCalibrator.applyState s4 p4 u4).2
          = some (RegressionConformalCalibrator.apply q4 p4 u4)
      ∧ (RegressionConformalCalibrator.apply q4 p4 u4).1 = p4
      ∧ RegressionConformalCalibrator.applyState
          (RegressionConformalCalibrator.applyState s4 p4 u4).1 p4 u4
        = RegressionConformalCalibrator.applyState s4 p4 u4) := by
  refine ⟨⟨rfl, ?_, rfl, rfl⟩, ⟨rfl, ?_, rfl, rfl⟩, ⟨rfl, ?_, rfl, rfl⟩, ⟨rfl, ?_, rfl, rfl⟩⟩
  · rw [MultilabelConformalCalibrator.applyState, h1, Option.map_some']
  · rw [MulticlassConformalCalibrator.applyState, h2, Option.map_some']
  · rw [AdaptiveMulticlassConformalCalibrator.applyState, h3, Option.map_some']
  · rw [RegressionConformalCalibrator.applyState, h4, Option.map_some']

/-- Witness for C9: fitted states with trivial fitted parameters and empty
inputs. -/
theorem apply_pure_after_fit_witness :
    ((MultilabelConformalCalibrator.applyState ⟨0, some ⟨⊥, ⊥⟩⟩ [] []).1 = ⟨0, some ⟨⊥, ⊥⟩⟩
      ∧ (MultilabelConformalCalibrator.applyState ⟨0, some ⟨⊥, ⊥⟩⟩ [] []).2
          = some (MultilabelConformalCalibrator.apply ⟨⊥, ⊥⟩ [] [])
      ∧ (MultilabelConformalCalibrator.apply ⟨⊥, ⊥⟩ [] []).1 = []
      ∧ MultilabelConformalCalibrator.applyState
          (MultilabelConformalCalibrator.applyState ⟨0, some ⟨⊥, ⊥⟩⟩ [] []).1 [] []
        = MultilabelConformalCalibrator.applyState ⟨0, some ⟨⊥, ⊥⟩⟩ [] [])
    ∧ ((MulticlassConformalCalibrator.applyState ⟨0, some []⟩ [] []).1 = ⟨0, some []⟩
      ∧ (MulticlassConformalCalibrator.applyState ⟨0, some []⟩ [] []).2
          = some (MulticlassConformalCalibrator.apply [] [] [])
      ∧ (MulticlassConformalCalibrator.apply [] [] []).1 = []
      ∧ MulticlassConformalCalibrator.applyState
          (MulticlassConformalCalibrator.applyState ⟨0, some []⟩ [] []).1 [] []
        = MulticlassConformalCalibrator.applyState ⟨0, some []⟩ [] [])
    ∧ ((AdaptiveMulticlassConformalCalibrator.applyState ⟨0, some []⟩ [] []).1 = ⟨0, some []⟩
      ∧ (AdaptiveMulticlassConformalCalibrator.applyState ⟨0, some []⟩ [] []).2
          = some (AdaptiveMulticlassConformalCalibrator.apply [] [] [])
      ∧ (AdaptiveMulticlassConformalCalibrator.apply [] [] []).1 = []
      ∧ AdaptiveMulticlassConformalCalibrator.applyState
          (AdaptiveMulticlassConformalCalibrator.applyState ⟨0, some []⟩ [] []).1 [] []
        = AdaptiveMulticlassConformalCalibrator.applyState ⟨0, some []⟩ [] [])
    ∧ ((RegressionConformalCalibrator.applyState ⟨0, some []⟩ [] []).1 = ⟨0, some []⟩
      ∧ (RegressionConformalCalibrator.applyState ⟨0, some []⟩ [] []).2
          = some (RegressionConformalCalibrator.apply [] [] [])
      ∧ (RegressionConformalCalibrator.apply [] [] []).1 = []
      ∧ RegressionConformalCalibrator.applyState
          (RegressionConformalCalibrator.applyState ⟨0, some []⟩ [] []).1 [] []
        = RegressionConformalCalibrator.applyState ⟨0, some []⟩ [] []) :=
  apply_pure_after_fit ⟨0, some ⟨⊥, ⊥⟩⟩ ⟨0, some []⟩ ⟨0, some []⟩ ⟨0, some []⟩
    ⟨⊥, ⊥⟩ [] [] [] [] [] [] [] [] [] rfl rfl rfl rfl

/-- Claim C10: the calibrator registry contains exactly the eleven
case-sensitive key strings, in registration order, each mapped to its
corresponding calibrator class, and registration returns the class
unchanged. -/
theorem registry_contents :
    UncertaintyCalibratorRegistry
        = [("zscaling", CalibratorClass.zscaling),
           ("tscaling", CalibratorClass.tscaling),
           ("zelikman-interval", CalibratorClass.zelikmanInterval),
           ("mve-weighting", CalibratorClass.mveWeighting),
           ("platt", CalibratorClass.platt),
           ("conformal-multilabel", CalibratorClass.conformalMultilabel),
           ("conformal-multiclass", CalibratorClass.conformalMulticlass),
           ("conformal-adaptive", CalibratorClass.conformalAdaptive),
           ("conformal-regression", CalibratorClass.conformalRegression),
           ("isotonic", CalibratorClass.isotonic),
           ("isotonic-multiclass", CalibratorClass.isotonicMulticlass)]
      ∧ (∀ (r : List (String × CalibratorClass)) (key : String) (cls : CalibratorClass),
          (ClassRegistry.register r key cls).2 = cls) :=
  ⟨by decide, fun _ _ _ => rfl⟩

/-- Two matrices agree at every mask-true cell (reading cells with `getD`
defaults, as the column extractions of the embeddings do). -/
def agreeOnMask {α : Type} (mask : List (List Bool)) (x y : List (List α)) (d : α) : Prop :=
  ∀ i j, (mask.getD i []).getD j false = true → (x.getD i []).getD j d = (y.getD i []).getD j d

lemma getD_lt {α : Type} (l : List α) (i : ℕ) (d : α) (h : i < l.length) :
    l.getD i d = l[i] := by
  rw [List.getD_eq_getElem?_getD, List.getElem?_eq_getElem h]
  rfl

lemma getD_map_lt {α β : Type} (f : α → β) (l : List α) (i : ℕ) (d : β) (h : i < l.length) :
    (l.map f).getD i d = f l[i] := by
  rw [List.getD_eq_getElem?_getD, List.getElem?_map, List.getElem?_eq_getElem h]
  rfl

lemma getD_ge {α : Type} (l : List α) (i : ℕ) (d : α) (h : l.length ≤ i) :
    l.getD i d = d := by
  rw [List.getD_eq_getElem?_getD, List.getElem?_eq_none (by simpa using h)]
  rfl

lemma agreeOnMask_of_bounded {α : Type} (mask : List (List Bool)) (x y : List (List α))
    (d : α)
    (h : ∀ i, i < mask.length → ∀ j, j < (mask.getD i []).length →
      (mask.getD i []).getD j false = true → (x.getD i []).getD j d = (y.getD i []).getD j d) :
    agreeOnMask mask x y d := by
  intro i j hm
  rcases Nat.lt_or_ge i mask.length with hi | hi
  · rcases Nat.lt_or_ge j (mask.getD i []).length with hj | hj
    · exact h i hi j hj hm
    · rw [getD_ge (mask.getD i []) j false hj] at hm
      exact absurd hm (by simp)
  · rw [getD_ge mask i [] hi] at hm
    simp at hm

lemma maskFilter_col_map_congr {α β : Type} (g : α → β) (x y : List (List α))
    (mask : List (List Bool)) (j : ℕ) (dcell : α)
    (hx : x.length = mask.length) (hy : y.length = mask.length)
    (h : agreeOnMask mask x y dcell) :
    maskFilter ((col dcell x j).map g) (col false mask j)
      = maskFilter ((col dcell y j).map g) (col false mask j) := by
  refine maskFilter_congr _ _ _ (by simp [col, hx]) (by simp [col, hy]) ?_
  intro i d hm
  rcases Nat.lt_or_ge i mask.length with hi | hi
  · have hxi : i < x.length := by omega
    have hyi : i < y.length := by omega
    have hm' : (mask.getD i []).getD j false = true := by
      rw [col, getD_map_lt _ _ _ _ hi] at hm
      rwa [getD_lt _ _ _ hi]
    have hcell := h i j hm'
    have hgx : ((col dcell x j).map g).getD i d = g ((x.getD i []).getD j dcell) := by
      show (((x.map (fun r => r.getD j dcell))).map g).getD i d = _
      rw [List.map_map, getD_map_lt _ _ _ _ hxi]
      simp only [Function.comp]
      rw [getD_lt x i [] hxi]
    have hgy : ((col dcell y j).map g).getD i d = g ((y.getD i []).getD j dcell) := by
      show (((y.map (fun r => r.getD j dcell))).map g).getD i d = _
      rw [List.map_map, getD_map_lt _ _ _ _ hyi]
      simp only [Function.comp]
      rw [getD_lt y i [] hyi]
    rw [hgx, hgy, hcell]
  · exfalso
    rw [col] at hm
    rw [getD_ge _ _ _ (by simpa using hi)] at hm
    exact absurd hm (by simp)

lemma maskFilter_col_congr {α : Type} (x y : List (List α)) (mask : List (List Bool))
    (j : ℕ) (dcell : α) (hx : x.length = mask.length) (hy : y.length = mask.length)
    (h : agreeOnMask mask x y dcell) :
    maskFilter (col dcell x j) (col false mask j)
      = maskFilter (col dcell y j) (col false mask j) := by
  have hmap := maskFilter_col_map_congr id x y mask j dcell hx hy h
  simpa using hmap

lemma fitWith_cellwise_congr (g : List ℚ → List ℚ) (hg : g [] = []) (alpha : ℚ)
    (uncs uncs' : List (List (List ℚ))) (targets targets' : List (List ℕ))
    (mask : List (List Bool))
    (hlu : uncs.length = mask.length) (hlu' : uncs'.length = mask.length)
    (hlt : targets.length = mask.length) (hlt' : targets'.length = mask.length)
    (hT : (uncs.headD []).length = (uncs'.headD []).length)
    (hu : agreeOnMask mask uncs uncs' []) (ht : agreeOnMask mask targets targets' 0) :
    MulticlassConformalCalibrator.fitWith (fun x => x.map (fun m => m.map g)) alpha
        uncs targets mask
      = MulticlassConformalCalibrator.fitWith (fun x => x.map (fun m => m.map g)) alpha
        uncs' targets' mask := by
  rw [MulticlassConformalCalibrator.fitWith, MulticlassConformalCalibrator.fitWith, hT]
  refine List.map_congr_left (fun j hj => ?_)
  rw [col_cellmap g hg, col_cellmap g hg]
  simp only [MulticlassConformalCalibrator.fitTask]
  rw [maskFilter_col_map_congr g uncs uncs' mask j [] hlu hlu' hu,
    maskFilter_col_congr targets targets' mask j 0 hlt hlt' ht]

lemma regression_fit_congr (alpha : ℚ) (preds preds' uncs uncs' targets targets' : List (List ℚ))
    (mask : List (List Bool))
    (hlp : preds.length = mask.length) (hlp' : preds'.length = mask.length)
    (hlu : uncs.length = mask.length) (hlu' : uncs'.length = mask.length)
    (hlt : targets.length = mask.length) (hlt' : targets'.length = mask.length)
    (hT : (preds.headD []).length = (preds'.headD []).length)
    (hp : agreeOnMask mask preds preds' 0) (hu : agreeOnMask mask uncs uncs' 0)
    (ht : agreeOnMask mask targets targets' 0) :
    RegressionConformalCalibrator.fit alpha preds uncs targets mask
      = RegressionConformalCalibrator.fit alpha preds' uncs' targets' mask := by
  rw [RegressionConformalCalibrator.fit, RegressionConformalCalibrator.fit, hT]
  refine List.map_congr_left (fun j hj => ?_)
  simp only [RegressionConformalCalibrator.fitTask]
  rw [maskFilter_col_congr preds preds' mask j 0 hlp hlp' hp,
    maskFilter_col_congr uncs uncs' mask j 0 hlu hlu' hu,
    maskFilter_col_congr targets targets' mask j 0 hlt hlt' ht]

lemma filterMap_zip3_congr (G : ℤ × ℚ × Bool → Option ℚ)
    (hmask : ∀ a b, G (a, b, false) = none) :
    ∀ (m : List Bool) (t t' : List ℤ) (u u' : List ℚ),
    t.length = m.length → t'.length = m.length → u.length = m.length → u'.length = m.length →
    (∀ j, m.getD j false = true → t.getD j 0 = t'.getD j 0) →
    (∀ j, m.getD j false = true → u.getD j 0 = u'.getD j 0) →
    List.filterMap G (zip3 t u m) = List.filterMap G (zip3 t' u' m)
  | [], t, t', u, u', ht, ht', hu, hu', _, _ => by
    rw [List.length_eq_zero.mp ht, List.length_eq_zero.mp ht', List.length_eq_zero.mp hu,
      List.length_eq_zero.mp hu']
  | m0 :: ms, t0 :: ts, t0' :: ts', u0 :: us, u0' :: us', ht, ht', hu, hu', hta, hua => by
    have ih := filterMap_zip3_congr G hmask ms ts ts' us us'
      (by simpa using ht) (by simpa using ht') (by simpa using hu) (by simpa using hu')
      (fun j hj => by simpa using hta (j + 1) (by simpa using hj))
      (fun j hj => by simpa using hua (j + 1) (by simpa using hj))
    cases m0 with
    | false =>
      simp only [zip3, List.filterMap_cons, hmask, ih]
    | true =>
      have h0t : t0 = t0' := by simpa using hta 0 rfl
      have h0u : u0 = u0' := by simpa using hua 0 rfl
      simp only [zip3, List.filterMap_cons, h0t, h0u, ih]
  | m0 :: ms, [], t', u, u', ht, _, _, _, _, _ => by simp at ht
  | m0 :: ms, t0 :: ts, [], u, u', _, ht', _, _, _, _ => by simp at ht'
  | m0 :: ms, t0 :: ts, t0' :: ts', [], u', _, _, hu, _, _, _ => by simp at hu
  | m0 :: ms, t0 :: ts, t0' :: ts', u0 :: us, [], _, _, _, hu', _, _ => by simp at hu'

lemma rowMinIn_congr (m : List Bool) (t t' : List ℤ) (u u' : List ℚ)
    (ht : t.length = m.length) (ht' : t'.length = m.length)
    (hu : u.length = m.length) (hu' : u'.length = m.length)
    (hta : ∀ j, m.getD j false = true → t.getD j 0 = t'.getD j 0)
    (hua : ∀ j, m.getD j false = true → u.getD j 0 = u'.getD j 0) :
    rowMinIn t u m = rowMinIn t' u' m := by
  rw [rowMinIn, rowMinIn,
    filterMap_zip3_congr _ (fun a b => by simp) m t t' u u' ht ht' hu hu' hta hua]

lemma rowMaxOut_congr (m : List Bool) (t t' : List ℤ) (u u' : List ℚ)
    (ht : t.length = m.length) (ht' : t'.length = m.length)
    (hu : u.length = m.length) (hu' : u'.length = m.length)
    (hta : ∀ j, m.getD j false = true → t.getD j 0 = t'.getD j 0)
    (hua : ∀ j, m.getD j false = true → u.getD j 0 = u'.getD j 0) :
    rowMaxOut t u m = rowMaxOut t' u' m := by
  rw [rowMaxOut, rowMaxOut,
    filterMap_zip3_congr _ (fun a b => by simp) m t t' u u' ht ht' hu hu' hta hua]

lemma zipWith3_rows_congr {β : Type} (row : List ℤ → List ℚ → List Bool → β)
    (hrow : ∀ (m : List Bool) (t t' : List ℤ) (u u' : List ℚ),
      t.length = m.length → t'.length = m.length → u.length = m.length → u'.length = m.length →
      (∀ j, m.getD j false = true → t.getD j 0 = t'.getD j 0) →
      (∀ j, m.getD j false = true → u.getD j 0 = u'.getD j 0) →
      row t u m = row t' u' m) (Tn : ℕ) :
    ∀ (ml : List (List Bool)) (tl tl' : List (List ℤ)) (ul ul' : List (List ℚ)),
    tl.length = ml.length → tl'.length = ml.length → ul.length = ml.length →
    ul'.length = ml.length →
    (∀ r ∈ tl, r.length = Tn) → (∀ r ∈ tl', r.length = Tn) →
    (∀ r ∈ ul, r.length = Tn) → (∀ r ∈ ul', r.length = Tn) →
    (∀ r ∈ ml, r.length = Tn) →
    agreeOnMask ml tl tl' 0 → agreeOnMask ml ul ul' 0 →
    zipWith3 row tl ul ml = zipWith3 row tl' ul' ml
  | [], tl, tl', ul, ul', h1, h2, h3, h4, _, _, _, _, _, _, _ => by
    rw [List.length_eq_zero.mp h1, List.length_eq_zero.mp h2, List.length_eq_zero.mp h3,
      List.length_eq_zero.mp h4]
  | m0 :: ms, t0 :: ts, t0' :: ts', u0 :: us, u0' :: us', h1, h2, h3, h4, hrt, hrt', hru,
      hru', hrm, hta, hua => by
    have ih := zipWith3_rows_congr row hrow Tn ms ts ts' us us'
      (by simpa using h1) (by simpa using h2) (by simpa using h3) (by simpa using h4)
      (fun r hr => hrt r (List.mem_cons_of_mem _ hr))
      (fun r hr => hrt' r (List.mem_cons_of_mem _ hr))
      (fun r hr => hru r (List.mem_cons_of_mem _ hr))
      (fun r hr => hru' r (List.mem_cons_of_mem _ hr))
      (fun r hr => hrm r (List.mem_cons_of_mem _ hr))
      (fun i j hj => hta (i + 1) j hj) (fun i j hj => hua (i + 1) j hj)
    have hm0 : m0.length = Tn := hrm m0 (List.mem_cons_self _ _)
    have hhead : row t0 u0 m0 = row t0' u0' m0 := by
      refine hrow m0 t0 t0' u0 u0'
        (by rw [hrt t0 (List.mem_cons_self _ _), hm0])
        (by rw [hrt' t0' (List.mem_cons_self _ _), hm0])
        (by rw [hru u0 (List.mem_cons_self _ _), hm0])
        (by rw [hru' u0' (List.mem_cons_self _ _), hm0])
        (fun j hj => hta 0 j hj) (fun j hj => hua 0 j hj)
    simp only [zipWith3, hhead, ih]
  | m0 :: ms, [], tl', ul, ul', h1, _, _, _, _, _, _, _, _, _, _ => by simp at h1
  | m0 :: ms, t0 :: ts, [], ul, ul', _, h2, _, _, _, _, _, _, _, _, _ => by simp at h2
  | m0 :: ms, t0 :: ts, t0' :: ts', [], ul', _, _, h3, _, _, _, _, _, _, _, _ => by
    simp at h3
  | m0 :: ms, t0 :: ts, t0' :: ts', u0 :: us, [], _, _, _, h4, _, _, _, _, _, _, _ => by
    simp at h4

/-- Claim C5, amended: masked entries never influence the fitted parameters of
the multiclass, adaptive multiclass and regression conformal calibrators: for
any pair of (shape-compatible) inputs that share the mask and agree at every
mask-true entry, fit produces identical results.  For the multilabel
conformal calibrator the same does not hold in general — its `has_zeros` /
`has_ones` row partition inspects targets entries regardless of the mask, so
flipping a masked-out target entry can reroute rows through `masked_fill`
broadcasting and change the fitted thresholds, as the counterexample shows —
but it does hold whenever every row of both target tensors contains a zero
and a one, so that both partitions keep every row. -/
theorem masked_entries_fit_invariance
    (alpha : ℚ)
    (u3 u3' : List (List (List ℚ))) (t3 t3' : List (List ℕ)) (m3 : List (List Bool))
    (p2 p2' u2 u2' t2 t2' : List (List ℚ)) (m2 : List (List Bool))
    (ul ul' : List (List ℚ)) (tl tl' : List (List ℤ)) (ml : List (List Bool)) (Tn : ℕ)
    (h3lu : u3.length = m3.length) (h3lu' : u3'.length = m3.length)
    (h3lt : t3.length = m3.length) (h3lt' : t3'.length = m3.length)
    (h3T : (u3.headD []).length = (u3'.headD []).length)
    (h3u : agreeOnMask m3 u3 u3' []) (h3t : agreeOnMask m3 t3 t3' 0)
    (h2lp : p2.length = m2.length) (h2lp' : p2'.length = m2.length)
    (h2lu : u2.length = m2.length) (h2lu' : u2'.length = m2.length)
    (h2lt : t2.length = m2.length) (h2lt' : t2'.length = m2.length)
    (h2T : (p2.headD []).length = (p2'.headD []).length)
    (h2p : agreeOnMask m2 p2 p2' 0) (h2u : agreeOnMask m2 u2 u2' 0)
    (h2t : agreeOnMask m2 t2 t2' 0)
    (hllu : ul.length = tl.length) (hllu' : ul'.length = tl'.length)
    (hllm : ml.length = tl.length) (hllm' : ml.length = tl'.length)
    (hlrt : ∀ r ∈ tl, r.length = Tn) (hlrt' : ∀ r ∈ tl', r.length = Tn)
    (hlru : ∀ r ∈ ul, r.length = Tn) (hlru' : ∀ r ∈ ul', r.length = Tn)
    (hlrm : ∀ r ∈ ml, r.length = Tn)
    (hlta : agreeOnMask ml tl tl' 0) (hlua : agreeOnMask ml ul ul' 0)
    (hTd : 2 ≤ (tl.headD []).length) (hTd' : 2 ≤ (tl'.headD []).length)
    (hz : ∀ t ∈ tl, (0 : ℤ) ∈ t) (ho : ∀ t ∈ tl, (1 : ℤ) ∈ t)
    (hz' : ∀ t ∈ tl', (0 : ℤ) ∈ t) (ho' : ∀ t ∈ tl', (1 : ℤ) ∈ t) :
    MulticlassConformalCalibrator.fit alpha u3 t3 m3
        = MulticlassConformalCalibrator.fit alpha u3' t3' m3
      ∧ AdaptiveMulticlassConformalCalibrator.fit alpha u3 t3 m3
        = AdaptiveMulticlassConformalCalibrator.fit alpha u3' t3' m3
      ∧ RegressionConformalCalibrator.fit alpha p2 u2 t2 m2
        = RegressionConformalCalibrator.fit alpha p2' u2' t2' m2
      ∧ MultilabelConformalCalibrator.fit alpha ul tl ml
        = MultilabelConformalCalibrator.fit alpha ul' tl' ml := by
  refine ⟨?_, ?_, ?_, ?_⟩
  · exact fitWith_cellwise_congr (fun r => r.map Neg.neg) rfl alpha u3 u3' t3 t3' m3
      h3lu h3lu' h3lt h3lt' h3T h3u h3t
  · exact fitWith_cellwise_congr AdaptiveMulticlassConformalCalibrator.scoresRow rfl alpha
      u3 u3' t3 t3' m3 h3lu h3lu' h3lt h3lt' h3T h3u h3t
  · exact regression_fit_congr alpha p2 p2' u2 u2' t2 t2' m2 h2lp h2lp' h2lu h2lu'
      h2lt h2lt' h2T h2p h2u h2t
  · rw [multilabel_fit_eq_quantiles alpha ul tl ml hTd hllu hllm hz ho,
      multilabel_fit_eq_quantiles alpha ul' tl' ml hTd' hllu' hllm' hz' ho']
    have hmin : zipWith3 rowMinIn tl ul ml = zipWith3 rowMinIn tl' ul' ml :=
      zipWith3_rows_congr rowMinIn rowMinIn_congr Tn ml tl tl' ul ul'
        (by omega) (by omega) (by omega) (by omega) hlrt hlrt' hlru hlru' hlrm hlta hlua
    have hmax : zipWith3 rowMaxOut tl ul ml = zipWith3 rowMaxOut tl' ul' ml :=
      zipWith3_rows_congr rowMaxOut rowMaxOut_congr Tn ml tl tl' ul ul'
        (by omega) (by omega) (by omega) (by omega) hlrt hlrt' hlru hlru' hlrm hlta hlua
    rw [hmin, hmax]

lemma multilabel_ce_fitA_eval :
    MultilabelConformalCalibrator.fit (1/10) [[1, 1], [1, 1]] [[0, 1], [1, 0]]
        [[false, true], [true, true]]
      = some ⟨⊤, toERat (-1)⟩ := by
  have key : MultilabelConformalCalibrator.fit (1/10) [[1, 1], [1, 1]] [[0, 1], [1, 0]]
      [[false, true], [true, true]]
      = some ⟨quantileHigher ⊥ [⊤, toERat (-1)] (1/10/2),
          quantileHigher ⊥ [toERat (-1), toERat (-1)] (1 - 1/10/2)⟩ := rfl
  have htin : quantileHigher ⊥ [(⊤ : ERat), toERat (-1)] (1/10/2) = (⊤ : ERat) := by
    refine quantileHigher_eval _ _ [toERat (-1), (⊤ : ERat)] _ 1 _ (List.Perm.swap _ _ _)
      (by simp [List.sorted_cons]) (by norm_num) (by norm_num) rfl
  have htout : quantileHigher ⊥ [toERat (-1), toERat (-1)] (1 - 1/10/2) = toERat (-1) := by
    refine quantileHigher_eval _ _ [toERat (-1), toERat (-1)] _ 1 _ (List.Perm.refl _)
      (by simp [List.sorted_cons]) (by norm_num) (by norm_num) rfl
  rw [key, htin, htout]

lemma multilabel_ce_fitB_eval :
    MultilabelConformalCalibrator.fit (1/10) [[1, 1], [1, 1]] [[1, 1], [1, 0]]
        [[false, true], [true, true]]
      = some ⟨toERat (-1), toERat (-1)⟩ := by
  have key : MultilabelConformalCalibrator.fit (1/10) [[1, 1], [1, 1]] [[1, 1], [1, 0]]
      [[false, true], [true, true]]
      = some ⟨quantileHigher ⊥ [toERat (-1), toERat (-1)] (1/10/2),
          quantileHigher ⊥ [toERat (-1), toERat (-1)] (1 - 1/10/2)⟩ := rfl
  have htin : quantileHigher ⊥ [toERat (-1), toERat (-1)] (1/10/2) = toERat (-1) := by
    refine quantileHigher_eval _ _ [toERat (-1), toERat (-1)] _ 1 _ (List.Perm.refl _)
      (by simp [List.sorted_cons]) (by norm_num) (by norm_num) rfl
  have htout : quantileHigher ⊥ [toERat (-1), toERat (-1)] (1 - 1/10/2) = toERat (-1) := by
    refine quantileHigher_eval _ _ [toERat (-1), toERat (-1)] _ 1 _ (List.Perm.refl _)
      (by simp [List.sorted_cons]) (by norm_num) (by norm_num) rfl
  rw [key, htin, htout]

/-- Counterexample to C5 as stated: for the multilabel conformal calibrator,
two target tensors that agree at every mask-true entry (they differ only at
the masked-out cell `(0, 0)`) do not yield identical fit results.  Flipping
the masked entry removes the only zero of row `0`, so the mask-blind
`has_zeros` partition drops that row; the single remaining zero-row is then
broadcast by `masked_fill` against both mask rows, and the fitted `tin`
changes from `+∞` to `toERat (-1)`. -/
theorem masked_entries_counterexample :
    (∀ i, i < 2 → ∀ j, j < 2 →
        ((([[false, true], [true, true]] : List (List Bool))[i]!)[j]! = true →
          (([[(0 : ℤ), 1], [1, 0]] : List (List ℤ))[i]!)[j]!
            = (([[(1 : ℤ), 1], [1, 0]] : List (List ℤ))[i]!)[j]!))
      ∧ MultilabelConformalCalibrator.fit (1/10) [[1, 1], [1, 1]]
          [[0, 1], [1, 0]] [[false, true], [true, true]] = some ⟨⊤, toERat (-1)⟩
      ∧ MultilabelConformalCalibrator.fit (1/10) [[1, 1], [1, 1]]
          [[1, 1], [1, 0]] [[false, true], [true, true]]
          = some ⟨toERat (-1), toERat (-1)⟩
      ∧ (⟨⊤, toERat (-1)⟩ : MultilabelFitted) ≠ ⟨toERat (-1), toERat (-1)⟩ := by
  refine ⟨by decide, multilabel_ce_fitA_eval, multilabel_ce_fitB_eval, by decide⟩

/-- Witness for the amended C5: concrete inputs with a genuinely masked-out,
differing entry for each calibrator, with every multilabel target row
containing both a zero and a one. -/
theorem masked_entries_fit_invariance_witness :
    MulticlassConformalCalibrator.fit (1/10) [[[1, 0]], [[2, 3]]] [[0], [1]] [[true], [false]]
        = MulticlassConformalCalibrator.fit (1/10) [[[1, 0]], [[5, 6]]] [[0], [0]]
          [[true], [false]]
      ∧ AdaptiveMulticlassConformalCalibrator.fit (1/10) [[[1, 0]], [[2, 3]]] [[0], [1]]
          [[true], [false]]
        = AdaptiveMulticlassConformalCalibrator.fit (1/10) [[[1, 0]], [[5, 6]]] [[0], [0]]
          [[true], [false]]
      ∧ RegressionConformalCalibrator.fit (1/10) [[1], [2]] [[1], [1]] [[2], [0]]
          [[true], [false]]
        = RegressionConformalCalibrator.fit (1/10) [[1], [7]] [[1], [9]] [[2], [4]]
          [[true], [false]]
      ∧ MultilabelConformalCalibrator.fit (1/10) [[1, 1], [1, 1]] [[0, 1], [1, 0]]
          [[true, true], [false, false]]
        = MultilabelConformalCalibrator.fit (1/10) [[1, 1], [2, 2]] [[0, 1], [0, 1]]
          [[true, true], [false, false]] :=
  masked_entries_fit_invariance (1/10)
    [[[1, 0]], [[2, 3]]] [[[1, 0]], [[5, 6]]] [[0], [1]] [[0], [0]] [[true], [false]]
    [[1], [2]] [[1], [7]] [[1], [1]] [[1], [9]] [[2], [0]] [[2], [4]] [[true], [false]]
    [[1, 1], [1, 1]] [[1, 1], [2, 2]] [[0, 1], [1, 0]] [[0, 1], [0, 1]]
    [[true, true], [false, false]] 2
    (by decide) (by decide) (by decide) (by decide) (by decide)
    (agreeOnMask_of_bounded _ _ _ _ (by decide)) (agreeOnMask_of_bounded _ _ _ _ (by decide))
    (by decide) (by decide) (by decide) (by decide) (by decide) (by decide) (by decide)
    (agreeOnMask_of_bounded _ _ _ _ (by decide)) (agreeOnMask_of_bounded _ _ _ _ (by decide))
    (agreeOnMask_of_bounded _ _ _ _ (by decide))
    (by decide) (by decide) (by decide) (by decide)
    (by decide) (by decide) (by decide) (by decide) (by decide)
    (agreeOnMask_of_bounded _ _ _ _ (by decide)) (agreeOnMask_of_bounded _ _ _ _ (by decide))
    (by decide) (by decide) (by decide) (by decide) (by decide) (by decide)
